import Mathlib

/-
  Verification development for the ride-hailing backend core.

  The Go sources are embedded shallowly:
  - string enums (ride status, vehicle type, entity type) stay strings;
  - float64 quantities become rationals (exact arithmetic) except where the
    source computes with trigonometric functions, which are embedded over the
    real numbers;
  - time.Time values become rational timestamps (seconds);
  - fallible operations return an Except value, and every repository or
    service operation that runs inside a unit-of-work transaction is a pure
    state transformer whose error result leaves the state untouched.

  Each definition cites the source file and function it embeds.
-/

set_option maxHeartbeats 1000000

/-- Timestamps are modelled as rational seconds. -/
abbrev Timestamp := ℚ

/-- Lower-cases one ASCII letter; helper for strToLower. -/
def charToLower (c : Char) : Char :=
  if c.toNat ≥ 65 ∧ c.toNat ≤ 90 then Char.ofNat (c.toNat + 32) else c

/-- Models strings.ToLower from the Go standard library for the ASCII
strings used by the services (status and vehicle-type names), working on the
character list so proofs can evaluate it. -/
def strToLower (s : String) : String :=
  ⟨s.data.map charToLower⟩

/-- Models strings.TrimSpace from the Go standard library, working on the
character list so proofs can evaluate it. -/
def strTrim (s : String) : String :=
  ⟨((s.data.dropWhile Char.isWhitespace).reverse.dropWhile Char.isWhitespace).reverse⟩

/-! ## Ride status (internal/domain/ride/ride.go, Status) -/

/-- Ride status, a string as in the Go source. -/
abbrev Status := String

def StatusRequested : Status := "REQUESTED"

def StatusMatched : Status := "MATCHED"

def StatusEnRoute : Status := "EN_ROUTE"

def StatusArrived : Status := "ARRIVED"

def StatusInProgress : Status := "IN_PROGRESS"

def StatusCompleted : Status := "COMPLETED"

def StatusCancelled : Status := "CANCELLED"

/-- Embeds Status.Valid from internal/domain/ride/ride.go. -/
def Status.Valid (status : Status) : Bool :=
  status == StatusRequested || status == StatusMatched || status == StatusEnRoute ||
    status == StatusArrived || status == StatusInProgress || status == StatusCompleted ||
    status == StatusCancelled

/-- Embeds Status.CanTransitionTo from internal/domain/ride/ride.go: a switch
on the current status; any status not listed (including EN_ROUTE) falls to the
default branch and returns false. -/
def Status.CanTransitionTo (status next : Status) : Bool :=
  if status == StatusRequested then
    next == StatusMatched || next == StatusCancelled
  else if status == StatusMatched then
    next == StatusArrived || next == StatusCancelled
  else if status == StatusArrived then
    next == StatusInProgress || next == StatusCancelled
  else if status == StatusInProgress then
    next == StatusCompleted || next == StatusCancelled
  else if status == StatusCompleted || status == StatusCancelled then
    false
  else
    false

/-- Embeds Status.Terminal from internal/domain/ride/ride.go. -/
def Status.Terminal (status : Status) : Bool :=
  status == StatusCompleted || status == StatusCancelled

/-! ## Vehicle type (src/unnamed/part_032, package ride) -/

/-- Vehicle type, a string as in the Go source. -/
abbrev VehicleType := String

def VehicleEconomy : VehicleType := "ECONOMY"

def VehiclePremium : VehicleType := "PREMIUM"

def VehicleXL : VehicleType := "XL"

/-- Embeds VehicleType.Valid from src/unnamed/part_032. -/
def VehicleType.Valid (vehicleType : VehicleType) : Bool :=
  vehicleType == VehicleEconomy || vehicleType == VehiclePremium || vehicleType == VehicleXL

/-! ## Fare, duration and priority (internal/domain/ride/ride.go) -/

/-- Embeds ComputeFinalFare from internal/domain/ride/ride.go.  The Go switch
on the vehicle type becomes an if chain; the default branch falls back to the
ECONOMY tariff; negative distance and duration are clamped to zero.  The
float64 arithmetic is embedded over any linear ordered field so the same
definition serves the rational and the real instantiations. -/
def ComputeFinalFare {α : Type} [LinearOrderedField α]
    (vt : VehicleType) (distanceKM : α) (durationMin : ℤ) : α :=
  let rate : α × α × α :=
    if vt == VehicleEconomy then (500, 100, 50)
    else if vt == VehiclePremium then (800, 120, 60)
    else if vt == VehicleXL then (1000, 150, 75)
    else (500, 100, 50)
  let d : α := if distanceKM < 0 then 0 else distanceKM
  let m : ℤ := if durationMin < 0 then 0 else durationMin
  rate.1 + rate.2.1 * d + rate.2.2 * (m : α)

/-- Embeds EstimateDurationMinutes from internal/domain/ride/ride.go:
minutes = distance / 21 * 60, rounded up, with a minimum of one minute. -/
def EstimateDurationMinutes {α : Type} [LinearOrderedField α] [FloorRing α]
    (distanceKM : α) : ℤ :=
  let minutes := distanceKM / 21 * 60
  let m := Int.ceil minutes
  if m < 1 then 1 else m

/-- Embeds ComputePriority from internal/domain/ride/ride.go. -/
def ComputePriority {α : Type} [LinearOrderedField α]
    (vt : VehicleType) (tripDistanceKM : α) : ℤ :=
  let base : ℤ :=
    if vt == VehicleEconomy then 3
    else if vt == VehiclePremium then 5
    else if vt == VehicleXL then 7
    else 3
  let d : α := if tripDistanceKM < 0 then 0 else tripDistanceKM
  let mod : ℤ :=
    if d ≥ 15 then 3
    else if d ≥ 8 then 2
    else if d ≥ 3 then 1
    else 0
  base + mod

/-! ## Ride entity (internal/domain/ride/ride.go, Ride) -/

/-- Embeds the Ride struct from internal/domain/ride/ride.go.  Pointer fields
become Option values; fares are rationals. -/
structure Ride where
  ID : String
  RideNumber : String
  CreatedAt : Timestamp
  UpdatedAt : Timestamp
  PassengerID : String
  DriverID : Option String
  VehicleType : VehicleType
  Status : Status
  Priority : ℤ
  RequestedAt : Timestamp
  MatchedAt : Option Timestamp
  ArrivedAt : Option Timestamp
  StartedAt : Option Timestamp
  CompletedAt : Option Timestamp
  CancelledAt : Option Timestamp
  CancellationReason : Option String
  EstimatedFare : Option ℚ
  FinalFare : Option ℚ
  PickupCoordinateID : Option String
  DestinationCoordinateID : Option String
  deriving Repr, DecidableEq

/-- Embeds the setStatus helper (which also touches UpdatedAt) from
internal/domain/ride/ride.go; the time.Now() call becomes the explicit now
argument threaded through every method. -/
def Ride.setStatus (ride : Ride) (status : String) (now : Timestamp) : Ride :=
  { ride with Status := status, UpdatedAt := now }

/-- Embeds Ride.AssignDriver from internal/domain/ride/ride.go. -/
def Ride.AssignDriver (ride : Ride) (driverID : String) (now : Timestamp) :
    Except String Ride :=
  if driverID == "" then .error "driver id is required"
  else if (match ride.DriverID with | some d => d != "" | none => false) then
    .error "driver already assigned"
  else if ride.Status != StatusRequested then .error "invalid ride status transition"
  else .ok (Ride.setStatus { ride with DriverID := some driverID, MatchedAt := some now }
      StatusMatched now)

/-- Embeds Ride.MarkEnRoute from internal/domain/ride/ride.go. -/
def Ride.MarkEnRoute (ride : Ride) (now : Timestamp) : Except String Ride :=
  if (match ride.DriverID with | some d => d == "" | none => true) then
    .error "no driver assigned"
  else if ride.Status != StatusMatched then .error "invalid ride status transition"
  else .ok (Ride.setStatus ride StatusEnRoute now)

/-- Embeds Ride.MarkArrived from internal/domain/ride/ride.go: it requires the
current status to be EN_ROUTE (not MATCHED). -/
def Ride.MarkArrived (ride : Ride) (now : Timestamp) : Except String Ride :=
  if (match ride.DriverID with | some d => d == "" | none => true) then
    .error "no driver assigned"
  else if ride.Status != StatusEnRoute then .error "invalid ride status transition"
  else .ok (Ride.setStatus { ride with ArrivedAt := some now } StatusArrived now)

/-- Embeds Ride.Start from internal/domain/ride/ride.go. -/
def Ride.Start (ride : Ride) (now : Timestamp) : Except String Ride :=
  if (match ride.DriverID with | some d => d == "" | none => true) then
    .error "no driver assigned"
  else if ride.Status != StatusArrived then .error "invalid ride status transition"
  else .ok (Ride.setStatus { ride with StartedAt := some now } StatusInProgress now)

/-- Embeds Ride.Complete from internal/domain/ride/ride.go. -/
def Ride.Complete (ride : Ride) (finalFare : ℚ) (now : Timestamp) : Except String Ride :=
  if ride.Status != StatusInProgress then .error "invalid ride status transition"
  else .ok (Ride.setStatus { ride with CompletedAt := some now, FinalFare := some finalFare }
      StatusCompleted now)

/-- Embeds Ride.Cancel from internal/domain/ride/ride.go: allowed from every
non-terminal status; a nonempty trimmed reason replaces the stored one. -/
def Ride.Cancel (ride : Ride) (reason : String) (now : Timestamp) : Except String Ride :=
  if Status.Terminal ride.Status then .error "invalid ride status transition"
  else
    let rs := strTrim reason
    let ride := if rs != "" then { ride with CancellationReason := some rs } else ride
    .ok (Ride.setStatus { ride with CancelledAt := some now } StatusCancelled now)

/-! ## Ride events and the ride repository
    (internal/general/postgres/ride_repo.go) -/

/-- Embeds the ride_events row written by insertRideEvent in
internal/general/postgres/ride_repo.go; only the payload keys the repository
actually writes for status changes are modelled. -/
structure RideEvent where
  rideID : String
  eventType : String
  oldStatus : String
  newStatus : String
  timestamp : Timestamp
  deriving Repr, DecidableEq

/-- Embeds timelineColumnFor from internal/general/postgres/ride_repo.go. -/
def timelineColumnFor (status : Status) : String :=
  if status == StatusMatched then "matched_at"
  else if status == StatusEnRoute then "updated_at"
  else if status == StatusArrived then "arrived_at"
  else if status == StatusInProgress then "started_at"
  else if status == StatusCompleted then "completed_at"
  else if status == StatusCancelled then "cancelled_at"
  else "updated_at"

/-- Embeds specificEventTypeFor from internal/general/postgres/ride_repo.go. -/
def specificEventTypeFor (status : Status) : String :=
  if status == StatusMatched then "DRIVER_MATCHED"
  else if status == StatusArrived then "DRIVER_ARRIVED"
  else if status == StatusInProgress then "RIDE_STARTED"
  else if status == StatusCompleted then "RIDE_COMPLETED"
  else if status == StatusCancelled then "RIDE_CANCELLED"
  else "STATUS_CHANGED"

/-- Applies the timeline-column stamp of RideRepo.UpdateStatus to the ride row:
the column named by timelineColumnFor receives the ts argument, except for the
updated_at case where only updated_at = now() is written. -/
def stampTimelineColumn (row : Ride) (status : Status) (ts : Timestamp) : Ride :=
  if status == StatusMatched then { row with MatchedAt := some ts }
  else if status == StatusArrived then { row with ArrivedAt := some ts }
  else if status == StatusInProgress then { row with StartedAt := some ts }
  else if status == StatusCompleted then { row with CompletedAt := some ts }
  else if status == StatusCancelled then { row with CancelledAt := some ts }
  else row

/-- Embeds RideRepo.UpdateStatus from internal/general/postgres/ride_repo.go.
The function reads the current status under a row lock, returns a no-op
success when the written status equals the current one, rejects an invalid
status string, rejects any write on a terminal row, and otherwise updates the
status, stamps updated_at = now() plus the dedicated timeline column = ts,
and appends one status-change event.  No lifecycle-graph check is performed
for non-terminal rows.  The row is the stored ride; ts is the updatedAt
argument of the Go function and now models the SQL now(). -/
def RideRepo.UpdateStatus (row : Ride) (status : Status) (ts now : Timestamp) :
    Except String (Ride × Option RideEvent) :=
  let current := row.Status
  if current == status then .ok (row, none)
  else if !(Status.Valid status) then .error "invalid ride status"
  else if current == "COMPLETED" || current == "CANCELLED" then
    .error "cannot transition from a terminal state"
  else
    let row := stampTimelineColumn { row with Status := status, UpdatedAt := now } status ts
    let ev : RideEvent :=
      { rideID := row.ID, eventType := specificEventTypeFor status,
        oldStatus := current, newStatus := status, timestamp := ts }
    .ok (row, some ev)

/-- Embeds RideRepo.AssignDriver from internal/general/postgres/ride_repo.go. -/
def RideRepo.AssignDriver (row : Ride) (driverID : String) (matchedAt now : Timestamp) :
    Except String (Ride × Option RideEvent) :=
  let current := row.Status
  if current == "MATCHED" && row.DriverID == some driverID then .ok (row, none)
  else if current != "REQUESTED" then
    .error "can only assign driver when ride is in REQUESTED state"
  else
    let row := { row with
        DriverID := some driverID, Status := "MATCHED",
        MatchedAt := some matchedAt, UpdatedAt := now }
    let ev : RideEvent :=
      { rideID := row.ID, eventType := "DRIVER_MATCHED",
        oldStatus := current, newStatus := "MATCHED", timestamp := matchedAt }
    .ok (row, some ev)

/-- Embeds RideRepo.Complete from internal/general/postgres/ride_repo.go:
idempotent on COMPLETED, an error on CANCELLED, and otherwise only allowed
from IN_PROGRESS. -/
def RideRepo.Complete (row : Ride) (finalFare : ℚ) (completedAt now : Timestamp) :
    Except String (Ride × Option RideEvent) :=
  let current := row.Status
  if current == "COMPLETED" then .ok (row, none)
  else if current == "CANCELLED" then .error "cannot complete a cancelled ride"
  else if current != "IN_PROGRESS" then .error "complete is only allowed from IN_PROGRESS"
  else
    let row := { row with
        Status := "COMPLETED", FinalFare := some finalFare,
        CompletedAt := some completedAt, UpdatedAt := now }
    let ev : RideEvent :=
      { rideID := row.ID, eventType := "RIDE_COMPLETED",
        oldStatus := current, newStatus := "COMPLETED", timestamp := completedAt }
    .ok (row, some ev)

/-- Embeds RideRepo.Cancel from internal/general/postgres/ride_repo.go:
idempotent on CANCELLED, an error on COMPLETED, and otherwise writes the given
cancellation reason and cancelled_at stamp. -/
def RideRepo.Cancel (row : Ride) (reason : String) (cancelledAt now : Timestamp) :
    Except String (Ride × Option RideEvent) :=
  let current := row.Status
  if current == "CANCELLED" then .ok (row, none)
  else if current == "COMPLETED" then .error "cannot cancel a completed ride"
  else
    let row := { row with
        Status := "CANCELLED", CancellationReason := some reason,
        CancelledAt := some cancelledAt, UpdatedAt := now }
    let ev : RideEvent :=
      { rideID := row.ID, eventType := "RIDE_CANCELLED",
        oldStatus := current, newStatus := "CANCELLED", timestamp := cancelledAt }
    .ok (row, some ev)

/-! ## Ride status publication and the matching supervisor cancel path
    (internal/software/ride/service/helpers.go and matcher.go) -/

/-- Embeds contracts.RideStatusMessage (internal/general/contracts) together
with the routing key computed by publishRideStatus in
internal/software/ride/service/helpers.go, which publishes on the ride topic
exchange with key "ride.status." plus the lowercased status. -/
structure PublishedRideStatus where
  exchange : String
  routingKey : String
  rideID : String
  status : String
  timestamp : Timestamp
  deriving Repr, DecidableEq

/-- Embeds publishRideStatus from internal/software/ride/service/helpers.go. -/
def rideService.publishRideStatus (rideID status : String) (now : Timestamp) :
    PublishedRideStatus :=
  { exchange := "ride_topic", routingKey := "ride.status." ++ strToLower status,
    rideID := rideID, status := status, timestamp := now }

/-- Embeds rideService.cancelOnNoMatch from
internal/software/ride/service/matcher.go.  Within one transaction: fetch the
ride; if it is no longer REQUESTED do nothing; otherwise cancel the in-memory
domain entity with reason NO_MATCH_TIMEOUT, persist the cancellation through
RideRepo.Cancel with the human-readable reason string, and publish one ride
status message whose status is taken from the cancelled in-memory entity. -/
def rideService.cancelOnNoMatch (rd : Ride) (now : Timestamp) :
    Except String (Ride × List PublishedRideStatus) := do
  if rd.Status != StatusRequested then
    return (rd, [])
  let rdMem ← Ride.Cancel rd "NO_MATCH_TIMEOUT" now
  let (row, _ev) ← RideRepo.Cancel rd "Not a single match was found in the allotted time" now now
  return (row, [rideService.publishRideStatus rd.ID rdMem.Status now])

/-! ## Geo entities (internal/domain/geo/entity_type.go and
    src/unnamed/part_034) -/

/-- Entity type, a string as in the Go source. -/
abbrev EntityType := String

def EntityTypeDriver : EntityType := "driver"

def EntityTypePassenger : EntityType := "passenger"

/-- Embeds EntityType.Valid from internal/domain/geo/entity_type.go. -/
def EntityType.Valid (entityType : EntityType) : Bool :=
  entityType == EntityTypeDriver || entityType == EntityTypePassenger

/-- Embeds the Coordinate struct from internal/domain/geo/entity_type.go.
The zero time.Time values become none. -/
structure Coordinate where
  ID : String
  CreatedAt : Option Timestamp
  UpdatedAt : Option Timestamp
  EntityID : String
  EntityType : EntityType
  Address : String
  Latitude : ℚ
  Longitude : ℚ
  FareAmount : ℚ
  DistanceKM : ℚ
  DurationMinutes : ℤ
  IsCurrent : Bool
  deriving Repr, DecidableEq

/-- Embeds Coordinate.Validate from internal/domain/geo/entity_type.go.  The
checks are, in source order: nonempty trimmed entity id, valid entity type,
nonempty trimmed address, latitude in the closed interval from -90 to 90,
longitude in the closed interval from -180 to 180, nonnegative fare, distance
and duration, and updated_at not before created_at when both are set.  There
is no zero-coordinate check. -/
def Coordinate.Validate (coordinate : Coordinate) : Except String Unit :=
  if strTrim coordinate.EntityID == "" then .error "entity_id cannot be empty"
  else if !(EntityType.Valid coordinate.EntityType) then .error "invalid entity type"
  else if strTrim coordinate.Address == "" then .error "address cannot be empty"
  else if coordinate.Latitude < -90 || coordinate.Latitude > 90 then
    .error "latitude must be between -90 and 90"
  else if coordinate.Longitude < -180 || coordinate.Longitude > 180 then
    .error "longitude must be between -180 and 180"
  else if coordinate.FareAmount < 0 then .error "fare_amount cannot be negative"
  else if coordinate.DistanceKM < 0 then .error "distance_km cannot be negative"
  else if coordinate.DurationMinutes < 0 then .error "duration_minutes cannot be negative"
  else
    match coordinate.CreatedAt, coordinate.UpdatedAt with
    | some created, some updated =>
        if updated < created then .error "updated_at cannot be before created_at"
        else .ok ()
    | _, _ => .ok ()

/-- Embeds geo.NewCoordinate from internal/domain/geo/entity_type.go. -/
def NewCoordinate (entityID : String) (entityType : EntityType) (address : String)
    (latitude longitude : ℚ) (now : Timestamp) : Except String Coordinate :=
  let coordinate : Coordinate :=
    { ID := "", CreatedAt := some now, UpdatedAt := some now,
      EntityID := strTrim entityID, EntityType := entityType, Address := strTrim address,
      Latitude := latitude, Longitude := longitude,
      FareAmount := 0, DistanceKM := 0, DurationMinutes := 0, IsCurrent := true }
  match Coordinate.Validate coordinate with
  | .ok _ => .ok coordinate
  | .error e => .error e

/-- Embeds the LocationHistory struct from src/unnamed/part_034. -/
structure LocationHistory where
  CoordinateID : String
  DriverID : String
  Latitude : ℚ
  Longitude : ℚ
  AccuracyMeters : Option ℚ
  SpeedKMH : Option ℚ
  HeadingDegrees : Option ℚ
  RecordedAt : Option Timestamp
  RideID : Option String
  deriving Repr, DecidableEq

/-- Embeds LocationHistory.Validate from src/unnamed/part_034.  A sample whose
latitude and longitude are both zero is rejected; a single zero component is
accepted as long as both are in range.  The float NaN checks of the source
have no counterpart in the rational model, where every value is a number. -/
def LocationHistory.Validate (location : LocationHistory) : Except String Unit :=
  if location.CoordinateID == "" then .error "coordinate ID is missing"
  else if location.DriverID == "" then .error "driver ID is missing"
  else if location.Latitude == 0 && location.Longitude == 0 then
    .error "coordinates cannot be zero"
  else if location.Latitude < -90 || location.Latitude > 90 then
    .error "latitude must be between -90 and 90"
  else if location.Longitude < -180 || location.Longitude > 180 then
    .error "longitude must be between -180 and 180"
  else if (match location.AccuracyMeters with | some a => decide (a < 0) | none => false) then
    .error "accuracy_meters cannot be negative"
  else if (match location.SpeedKMH with | some s => decide (s < 0) | none => false) then
    .error "speed_kmh cannot be negative"
  else if (match location.HeadingDegrees with
      | some h => decide (h < 0 ∨ h > 360) | none => false) then
    .error "heading_degrees must be between 0 and 360"
  else if location.RecordedAt == none then .error "recorded_at must be a valid timestamp"
  else .ok ()

/-- Embeds geo.NewLocationHistory from src/unnamed/part_034: trims the ids,
defaults a zero recorded_at to now, and validates. -/
def NewLocationHistory (coordinateID driverID : String) (rideID : Option String)
    (latitude longitude : ℚ) (accuracyMeters speedKMH headingDegrees : Option ℚ)
    (recordedAt : Option Timestamp) (now : Timestamp) : Except String LocationHistory :=
  let location : LocationHistory :=
    { CoordinateID := strTrim coordinateID, DriverID := strTrim driverID,
      Latitude := latitude, Longitude := longitude,
      AccuracyMeters := accuracyMeters, SpeedKMH := speedKMH,
      HeadingDegrees := headingDegrees,
      RecordedAt := match recordedAt with | some t => some t | none => some now,
      RideID := match rideID with | some r => some (strTrim r) | none => none }
  match LocationHistory.Validate location with
  | .ok _ => .ok location
  | .error e => .error e

/-! ## Driver entities (internal/domain/driver/status.go) -/

/-- Driver status, a string as in the Go source. -/
abbrev DriverStatus := String

def DriverStatusOffline : DriverStatus := "OFFLINE"

def DriverStatusAvailable : DriverStatus := "AVAILABLE"

def DriverStatusBusy : DriverStatus := "BUSY"

def DriverStatusEnRoute : DriverStatus := "EN_ROUTE"

/-- Embeds DriverStatus.Valid from internal/domain/driver/status.go. -/
def DriverStatus.Valid (status : DriverStatus) : Bool :=
  status == DriverStatusOffline || status == DriverStatusAvailable ||
    status == DriverStatusBusy || status == DriverStatusEnRoute

/-- Embeds the columns of the drivers table used by the verified operations
(driver row as scanned in internal/general/postgres/ride_repo_metrics.go). -/
structure DriverRec where
  ID : String
  LicenseNumber : String
  VehicleType : VehicleType
  Rating : ℚ
  TotalRides : ℤ
  TotalEarnings : ℚ
  Status : DriverStatus
  IsVerified : Bool
  deriving Repr, DecidableEq

/-- Embeds DriverRepo.UpdateStatus from
internal/general/postgres/ride_repo_metrics.go: rejects an invalid status
string and otherwise overwrites the status column. -/
def DriverRepo.UpdateStatus (drv : DriverRec) (status : DriverStatus) :
    Except String DriverRec :=
  if !(DriverStatus.Valid status) then .error "invalid driver status"
  else .ok { drv with Status := status }

/-- Embeds DriverRepo.IncrementCountersOnComplete from
internal/general/postgres/ride_repo_metrics.go: guards against negative
earnings and otherwise adds one ride and the earnings to the counters. -/
def DriverRepo.IncrementCountersOnComplete (drv : DriverRec) (earnings : ℚ) :
    Except String DriverRec :=
  if earnings < 0 then .error "earnings cannot be negative"
  else .ok { drv with
      TotalRides := drv.TotalRides + 1,
      TotalEarnings := drv.TotalEarnings + earnings }

/-- Embeds the DriverSession struct from internal/domain/driver/status.go. -/
structure DriverSession where
  ID : String
  DriverID : String
  StartedAt : Timestamp
  EndedAt : Option Timestamp
  TotalRides : ℤ
  TotalEarnings : ℚ
  deriving Repr, DecidableEq

/-- Embeds DriverSession.AddRide from internal/domain/driver/status.go. -/
def DriverSession.AddRide (session : DriverSession) (earnings : ℚ) :
    Except String DriverSession :=
  if session.EndedAt != none then .error "session already ended"
  else if earnings < 0 then .error "totals cannot be negative"
  else .ok { session with
      TotalRides := session.TotalRides + 1,
      TotalEarnings := session.TotalEarnings + earnings }

/-- Embeds DriverSessionRepo.IncrementCounters from
internal/general/postgres/driver_session_repo.go: persists the given counter
values on the stored session row. -/
def DriverSessionRepo.IncrementCounters (stored : DriverSession)
    (totalRides : ℤ) (totalEarnings : ℚ) : DriverSession :=
  { stored with TotalRides := totalRides, TotalEarnings := totalEarnings }

/-! ## Location update pipeline
    (internal/software/dandl/service/go_offline.go, UpdateLocation, and
    internal/general/postgres/coordinates.go) -/

/-- Embeds the columns of a stored coordinates row that the location pipeline
reads back (internal/general/postgres/coordinates.go). -/
structure StoredCoordinate where
  ID : String
  Latitude : ℚ
  Longitude : ℚ
  UpdatedAt : Timestamp
  IsCurrent : Bool
  deriving Repr, DecidableEq

/-- State visible to one driver location update: whether the driver row
exists, the active ride for the driver if any, the current coordinate row for
the driver if any, and the appended location history. -/
structure DriverLocState where
  driverExists : Bool
  activeRideID : Option String
  current : Option StoredCoordinate
  history : List LocationHistory
  deriving Repr, DecidableEq

/-- Embeds ports.UpdateLocationInput as filled by the HTTP handler in
internal/software/dandl/handler/update_location_handler.go. -/
structure UpdateLocationInput where
  DriverID : String
  Latitude : ℚ
  Longitude : ℚ
  AccuracyMeters : Option ℚ
  SpeedKmh : Option ℚ
  HeadingDegrees : Option ℚ
  deriving Repr, DecidableEq

/-- Embeds the fields of ports.UpdateLocationResult that UpdateLocation
fills. -/
structure UpdateLocationResult where
  CoordinateID : String
  UpdatedAt : Timestamp
  deriving Repr, DecidableEq

/-- Embeds contracts.LocationUpdateMessage as built at the end of
UpdateLocation in internal/software/dandl/service/go_offline.go; RideID is the
empty string when the driver has no active ride, and absent speed and heading
default to zero. -/
structure LocationUpdateMessage where
  DriverID : String
  RideID : String
  Lat : ℚ
  Lng : ℚ
  SpeedKMH : ℚ
  HeadingDegrees : ℚ
  Timestamp : Timestamp
  deriving Repr, DecidableEq

/-- Embeds upsertNewCoordinate from internal/general/postgres/coordinates.go
for the driver entity: validates the coordinate, flips the previous current
row when makeCurrent is set, and inserts the new row returning its id and
updated_at.  The freshly generated row id is the newID argument. -/
def upsertNewCoordinate (st : DriverLocState) (entityID : String)
    (entityType : EntityType) (coord : Coordinate) (makeCurrent : Bool)
    (newID : String) (now : Timestamp) :
    Except String (DriverLocState × String × Timestamp) :=
  if !(EntityType.Valid entityType) then .error "invalid entity type"
  else
    let coord := { coord with EntityID := entityID, EntityType := entityType }
    match Coordinate.Validate coord with
    | .error e => .error e
    | .ok _ =>
        let stored : StoredCoordinate :=
          { ID := newID, Latitude := coord.Latitude, Longitude := coord.Longitude,
            UpdatedAt := now, IsCurrent := makeCurrent }
        .ok ({ st with current := if makeCurrent then some stored else st.current },
          newID, now)

/-- Embeds the write path of driverLocationService.UpdateLocation
(internal/software/dandl/service/go_offline.go): upsert a fresh current
coordinate with address N/A and the input point, then archive a location
history row carrying the remembered ride id. -/
def updateLocationWrite (st : DriverLocState) (input : UpdateLocationInput)
    (rideIDPtr : Option String) (newID : String) (now : Timestamp) :
    Except String (DriverLocState × UpdateLocationResult) := do
  let coord : Coordinate :=
    { ID := "", CreatedAt := none, UpdatedAt := none,
      EntityID := input.DriverID, EntityType := EntityTypeDriver, Address := "N/A",
      Latitude := input.Latitude, Longitude := input.Longitude,
      FareAmount := 0, DistanceKM := 0, DurationMinutes := 0, IsCurrent := true }
  let (st, coordID, updatedAt) ←
    upsertNewCoordinate st input.DriverID EntityTypeDriver coord true newID now
  let lh ← NewLocationHistory coordID input.DriverID rideIDPtr
    input.Latitude input.Longitude
    input.AccuracyMeters input.SpeedKmh input.HeadingDegrees (some now) now
  return ({ st with history := st.history ++ [lh] },
    { CoordinateID := coordID, UpdatedAt := updatedAt })

/-- Embeds driverLocationService.UpdateLocation from
internal/software/dandl/service/go_offline.go.  Inside the transaction: check
the driver exists, remember the active ride, skip the write when the current
coordinate was updated less than three seconds ago (returning the existing
record), otherwise write the fresh coordinate and history row.  After the
transaction commits, one location_update fanout message carrying the input
point is published on either path. -/
def driverLocationService.UpdateLocation (st : DriverLocState)
    (input : UpdateLocationInput) (newID : String) (now : Timestamp) :
    Except String (DriverLocState × UpdateLocationResult × List LocationUpdateMessage) := do
  if !st.driverExists then
    .error "driver not found"
  else
    let rideIDPtr := st.activeRideID
    let locMsg : LocationUpdateMessage :=
      { DriverID := input.DriverID,
        RideID := match rideIDPtr with | some r => r | none => "",
        Lat := input.Latitude, Lng := input.Longitude,
        SpeedKMH := match input.SpeedKmh with | some s => s | none => 0,
        HeadingDegrees := match input.HeadingDegrees with | some h => h | none => 0,
        Timestamp := now }
    match st.current with
    | some cur =>
        if now - cur.UpdatedAt < 3 then
          .ok (st, { CoordinateID := cur.ID, UpdatedAt := cur.UpdatedAt }, [locMsg])
        else do
          let (st, out) ← updateLocationWrite st input rideIDPtr newID now
          .ok (st, out, [locMsg])
    | none => do
        let (st, out) ← updateLocationWrite st input rideIDPtr newID now
        .ok (st, out, [locMsg])

/-! ## Matching consumer (internal/software/dandl/service/matching_consumer.go) -/

/-- Embeds contracts.GeoPoint; the float64 fields are embedded over any
linear ordered field. -/
structure GeoPoint (α : Type) where
  Lat : α
  Lng : α
  Address : String
  deriving Repr, DecidableEq

/-- Embeds contracts.RideMatchRequest from
internal/general/contracts/ride_request.go. -/
structure RideMatchRequest (α : Type) where
  RideID : String
  RideNumber : String
  PickupLocation : GeoPoint α
  Destination : GeoPoint α
  RideType : String
  EstimatedFare : α
  MaxDistanceKM : α
  TimeoutSeconds : ℤ
  CorrelationID : String
  deriving Repr, DecidableEq

/-- Embeds the argument tuple that the matching consumer passes to
FindNearbyAvailable at internal/software/dandl/service/matching_consumer.go
lines 29 through 36: pickup point, requested vehicle type, and the literal
constants for the radius and the candidate limit. -/
structure FindNearbyArgs (α : Type) where
  Lat : α
  Lng : α
  Vehicle : VehicleType
  RadiusKm : α
  Limit : ℤ
  deriving Repr, DecidableEq

/-- Embeds the FindNearbyAvailable call site in the matching consumer: the
radius is the literal 5.0 and the limit the literal 10; no field of the
request other than the pickup point and the ride type is consulted. -/
def driverLocationService.findNearbyArgs {α : Type} [LinearOrderedField α]
    (request : RideMatchRequest α) : FindNearbyArgs α :=
  { Lat := request.PickupLocation.Lat, Lng := request.PickupLocation.Lng,
    Vehicle := request.RideType, RadiusKm := 5, Limit := 10 }

/-- Embeds contracts.WSDriverRideOffer as composed in the matching
consumer. -/
structure WSDriverRideOffer (α : Type) where
  type : String
  OfferID : String
  RideID : String
  RideNumber : String
  Pickup : GeoPoint α
  Destination : GeoPoint α
  EstimatedFare : α
  DriverEarnings : α
  DistanceToPickupKm : α
  EstimatedRideMin : ℤ
  ExpiresAt : Timestamp
  deriving Repr, DecidableEq

/-- Environment of one delivery of the matching consumer: the candidate list
returned by FindNearbyAvailable, the socket registry, the per-driver
driver-to-pickup distance query (none models a failed database query), the
per-driver websocket send outcome, the generated offer ids, the send time and
the ride-minutes estimate computed once before the loop. -/
structure MatchConsumerEnv (α : Type) where
  candidates : List DriverRec
  isDriverConnected : String → Bool
  distanceToPickup : String → Option α
  sendOk : String → Bool
  offerID : String → String
  now : Timestamp
  estimatedRideMin : ℤ

/-- Embeds the offer loop of driverLocationService.StartBackgroundConsumer
(internal/software/dandl/service/matching_consumer.go lines 56 through 121).
For each candidate: skip it when no socket is open; skip it when the
driver-to-pickup distance query fails; compose the offer with
driver_earnings = estimated_fare times 0.8 and expires_at = now plus
timeout_seconds; skip the candidate when the socket push fails.  The result
lists the delivered offers together with their recipients. -/
def driverLocationService.sendRideOffers {α : Type} [LinearOrderedField α]
    (env : MatchConsumerEnv α) (request : RideMatchRequest α) :
    List (String × WSDriverRideOffer α) :=
  env.candidates.filterMap fun drv =>
    if !env.isDriverConnected drv.ID then none
    else
      match env.distanceToPickup drv.ID with
      | none => none
      | some distKm =>
          let offer : WSDriverRideOffer α :=
            { type := "ride_offer", OfferID := env.offerID drv.ID,
              RideID := request.RideID, RideNumber := request.RideNumber,
              Pickup := request.PickupLocation, Destination := request.Destination,
              EstimatedFare := request.EstimatedFare,
              DriverEarnings := request.EstimatedFare * 0.8,
              DistanceToPickupKm := distKm,
              EstimatedRideMin := env.estimatedRideMin,
              ExpiresAt := env.now + (request.TimeoutSeconds : ℚ) }
          if env.sendOk drv.ID then some (drv.ID, offer) else none

/-! ## Ride completion (src/unnamed/part_006, CompleteRide) -/

/-- Embeds ports.CompleteRideInput. -/
structure CompleteRideInput where
  DriverID : String
  RideID : String
  ActualDistanceKM : ℚ
  ActualDurationMinutes : ℤ
  deriving Repr, DecidableEq

/-- Embeds the fields of ports.CompleteRideResult filled by CompleteRide. -/
structure CompleteRideResult where
  RideID : String
  Status : String
  CompletedAt : Timestamp
  DriverEarnings : ℚ
  Message : String
  deriving Repr, DecidableEq

/-- State touched by one ride completion: the driver row, the ride row and
the active driver session, all updated inside one unit-of-work transaction. -/
structure CompleteRideWorld where
  driver : DriverRec
  ride : Ride
  session : DriverSession
  deriving Repr, DecidableEq

/-- Embeds driverLocationService.CompleteRide from src/unnamed/part_006.
Within one transaction: check the driver exists and the ride is assigned to
it, recompute the final fare with ComputeFinalFare from the driver-reported
actuals, complete the domain entity (requires IN_PROGRESS), persist the
completion, set the driver AVAILABLE, increment the driver counters by one
ride and the final fare, and increment the active session counters.  An error
anywhere aborts the transaction, leaving the world unchanged. -/
def driverLocationService.CompleteRide (w : CompleteRideWorld)
    (input : CompleteRideInput) (now : Timestamp) :
    Except String (CompleteRideWorld × CompleteRideResult) := do
  if w.driver.ID != input.DriverID then
    .error "driver not found"
  else if w.ride.ID != input.RideID then
    .error "ride not found"
  else if (match w.ride.DriverID with | some d => d != input.DriverID | none => true) then
    .error "ride is not assigned to the driver"
  else
    let finalFare : ℚ :=
      ComputeFinalFare w.ride.VehicleType input.ActualDistanceKM input.ActualDurationMinutes
    let rd ← Ride.Complete w.ride finalFare now
    match rd.FinalFare, rd.CompletedAt with
    | some fare, some completedAt => do
        let (row, _ev) ← RideRepo.Complete w.ride fare completedAt now
        let drv ← DriverRepo.UpdateStatus w.driver DriverStatusAvailable
        let drv ← DriverRepo.IncrementCountersOnComplete drv finalFare
        if w.session.DriverID != input.DriverID || w.session.EndedAt != none then
          .error "no active session"
        else do
          let sess ← DriverSession.AddRide w.session finalFare
          let stored := DriverSessionRepo.IncrementCounters w.session
            sess.TotalRides sess.TotalEarnings
          .ok ({ driver := drv, ride := row, session := stored },
            { RideID := input.RideID, Status := DriverStatusAvailable,
              CompletedAt := completedAt, DriverEarnings := finalFare,
              Message := "Ride completed successfully" })
    | _, _ =>
        -- unreachable: Ride.Complete always sets FinalFare and CompletedAt;
        -- the Go code dereferences the pointers unconditionally.
        .error "final fare missing"

/-! ## Great-circle distance (internal/domain/ride/ride.go, HaversineKM) -/

/-- Embeds the two-argument arctangent of the Go math package (math.Atan2),
case by case on the signs of the arguments. -/
noncomputable def atan2 (y x : ℝ) : ℝ :=
  if 0 < x then Real.arctan (y / x)
  else if x < 0 ∧ 0 ≤ y then Real.arctan (y / x) + Real.pi
  else if x < 0 ∧ y < 0 then Real.arctan (y / x) - Real.pi
  else if x = 0 ∧ 0 < y then Real.pi / 2
  else if x = 0 ∧ y < 0 then -(Real.pi / 2)
  else 0

/-- Embeds HaversineKM from internal/domain/ride/ride.go over the real
numbers, with Earth radius 6371 km. -/
noncomputable def HaversineKM (lat1 lon1 lat2 lon2 : ℝ) : ℝ :=
  let R : ℝ := 6371
  let a1 := lat1 * Real.pi / 180
  let a2 := lat2 * Real.pi / 180
  let da := (lat2 - lat1) * Real.pi / 180
  let db := (lon2 - lon1) * Real.pi / 180
  let a := Real.sin (da / 2) * Real.sin (da / 2) +
    Real.cos a1 * Real.cos a2 * (Real.sin (db / 2) * Real.sin (db / 2))
  let c := 2 * atan2 (Real.sqrt a) (Real.sqrt (1 - a))
  R * c

/-! ## Ride creation and its match request (src/unnamed/part_003,
    rideService.CreateRide) -/

/-- Embeds ports.CreateRideInput as used by rideService.CreateRide. -/
structure CreateRideInput where
  PassengerID : String
  PickupLatitude : ℝ
  PickupLongitude : ℝ
  PickupAddress : String
  DestinationLatitude : ℝ
  DestinationLongitude : ℝ
  DestinationAddress : String
  VehicleType : VehicleType

/-- Embeds the estimate computed at the top of rideService.CreateRide
(src/unnamed/part_003): the trip distance is the haversine between pickup and
destination, the duration estimate and the fare estimate are derived from
it. -/
noncomputable def rideService.tripDistance (input : CreateRideInput) : ℝ :=
  HaversineKM input.PickupLatitude input.PickupLongitude
    input.DestinationLatitude input.DestinationLongitude

/-- Embeds the contracts.RideMatchRequest literal built in
rideService.CreateRide (src/unnamed/part_003 lines 107 through 130): the
MaxDistanceKM field receives the pickup-to-destination trip distance and
TimeoutSeconds the literal 30. -/
noncomputable def rideService.buildRideMatchRequest (input : CreateRideInput)
    (rideID rideNumber correlationID : String) : RideMatchRequest ℝ :=
  let dst := rideService.tripDistance input
  { RideID := rideID, RideNumber := rideNumber,
    PickupLocation :=
      { Lat := input.PickupLatitude, Lng := input.PickupLongitude,
        Address := input.PickupAddress },
    Destination :=
      { Lat := input.DestinationLatitude, Lng := input.DestinationLongitude,
        Address := input.DestinationAddress },
    RideType := input.VehicleType,
    EstimatedFare := ComputeFinalFare input.VehicleType dst (EstimateDurationMinutes dst),
    MaxDistanceKM := dst,
    TimeoutSeconds := 30,
    CorrelationID := correlationID }

/-! ## Scenario S1 of the specification: the concrete ride creation inputs -/

/-- Trip distance computed by the code for the S1 pickup and destination. -/
noncomputable def s1Distance : ℝ :=
  HaversineKM 43.238949 76.889709 43.25 76.95

/-- Duration estimate computed by the code for the S1 coordinates. -/
noncomputable def s1DurationMinutes : ℤ :=
  EstimateDurationMinutes s1Distance

/-- Estimated fare computed by the code for the S1 coordinates and the
ECONOMY class. -/
noncomputable def s1EstimatedFare : ℝ :=
  ComputeFinalFare VehicleEconomy s1Distance s1DurationMinutes

/-! ## Tariff table helper and concrete fixtures used by the theorems -/

/-- Base component of the tariff that ComputeFinalFare selects for a vehicle
type, including the ECONOMY fallback of the default branch. -/
def fareTariffBase (vt : VehicleType) : ℚ :=
  if vt == VehicleEconomy then 500
  else if vt == VehiclePremium then 800
  else if vt == VehicleXL then 1000
  else 500

/-- Concrete REQUESTED ride used as a test vector. -/
def demoRide : Ride :=
  { ID := "ride-1", RideNumber := "RIDE_20251011_120000_001",
    CreatedAt := 0, UpdatedAt := 0, PassengerID := "p-1", DriverID := none,
    VehicleType := "ECONOMY", Status := "REQUESTED", Priority := 4,
    RequestedAt := 0, MatchedAt := none, ArrivedAt := none, StartedAt := none,
    CompletedAt := none, CancelledAt := none, CancellationReason := none,
    EstimatedFare := some 1754, FinalFare := none,
    PickupCoordinateID := some "coord-p", DestinationCoordinateID := some "coord-d" }

/-- Concrete IN_PROGRESS ride assigned to driver-1, used as a test vector. -/
def demoInProgressRide : Ride :=
  { demoRide with
    ID := "ride-2", DriverID := some "driver-1",
    Status := "IN_PROGRESS", MatchedAt := some 10, ArrivedAt := some 20,
    StartedAt := some 30 }

/-- Concrete driver row used as a test vector. -/
def demoDriver : DriverRec :=
  { ID := "driver-1", LicenseNumber := "KZ-123", VehicleType := "ECONOMY",
    Rating := 5, TotalRides := 7, TotalEarnings := 10000,
    Status := "BUSY", IsVerified := true }

/-- Concrete open driver session used as a test vector. -/
def demoSession : DriverSession :=
  { ID := "sess-1", DriverID := "driver-1", StartedAt := 0, EndedAt := none,
    TotalRides := 2, TotalEarnings := 3000 }

/-- Concrete location-pipeline state whose current coordinate was written at
time zero. -/
def demoLocState : DriverLocState :=
  { driverExists := true, activeRideID := some "ride-2",
    current := some { ID := "coord-1", Latitude := 1, Longitude := 1,
                      UpdatedAt := 0, IsCurrent := true },
    history := [] }

/-- Concrete location update arriving one second after the stored one and
carrying a different point. -/
def demoLocInput : UpdateLocationInput :=
  { DriverID := "driver-1", Latitude := 2, Longitude := 2,
    AccuracyMeters := none, SpeedKmh := none, HeadingDegrees := none }

/-- Concrete location update with zero latitude and a nonzero longitude. -/
def demoZeroLatInput : UpdateLocationInput :=
  { DriverID := "driver-1", Latitude := 0, Longitude := 76,
    AccuracyMeters := none, SpeedKmh := none, HeadingDegrees := none }

/-- Concrete match-consumer environment with a single connected candidate. -/
def demoMatchEnv : MatchConsumerEnv ℚ :=
  { candidates := [demoDriver],
    isDriverConnected := fun _ => true,
    distanceToPickup := fun _ => some 2,
    sendOk := fun _ => true,
    offerID := fun _ => "offer-1",
    now := 100, estimatedRideMin := 13 }

/-- Concrete match request used as a test vector. -/
def demoMatchRequest : RideMatchRequest ℚ :=
  { RideID := "ride-1", RideNumber := "RIDE_20251011_120000_001",
    PickupLocation := { Lat := 43.238949, Lng := 76.889709, Address := "A" },
    Destination := { Lat := 43.25, Lng := 76.95, Address := "B" },
    RideType := "ECONOMY", EstimatedFare := 1757, MaxDistanceKM := 5,
    TimeoutSeconds := 30, CorrelationID := "req-1" }

/-! ## Helper lemmas -/

/-- The base fare of every tariff row is positive. -/
lemma fareTariffBase_pos (vt : VehicleType) : 0 < fareTariffBase vt := by
  unfold fareTariffBase
  split_ifs <;> norm_num

/-- ComputeFinalFare always returns at least the base of the selected
tariff. -/
lemma computeFinalFare_ge_base (vt : VehicleType) (d : ℚ) (m : ℤ) :
    fareTariffBase vt ≤ ComputeFinalFare vt d m := by
  unfold ComputeFinalFare fareTariffBase
  dsimp only
  set D := (if d < 0 then (0:ℚ) else d) with hDdef
  set M := (if m < 0 then (0:ℤ) else m) with hMdef
  have hD : 0 ≤ D := by
    rw [hDdef]
    split_ifs with h
    · exact le_rfl
    · exact le_of_not_lt h
  have hM : (0:ℚ) ≤ (M : ℚ) := by
    rw [hMdef]
    split_ifs with h
    · norm_num
    · exact_mod_cast le_of_not_lt h
  split_ifs <;> dsimp only <;> nlinarith [hD, hM]

/-- ComputeFinalFare never returns a negative fare. -/
lemma computeFinalFare_nonneg (vt : VehicleType) (d : ℚ) (m : ℤ) :
    0 ≤ ComputeFinalFare vt d m :=
  le_trans (le_of_lt (fareTariffBase_pos vt)) (computeFinalFare_ge_base vt d m)

/-! ## Claim C10 -/

/-- C10: ComputeFinalFare is total and never signals an error: a negative
distance or duration is clamped to zero, an unrecognized vehicle class falls
back to the ECONOMY tariff, and the result is always at least the base fare
of the tariff used. -/
theorem C10_computeFinalFare_total :
    (∀ (vt : VehicleType) (d : ℚ) (m : ℤ), d < 0 →
      ComputeFinalFare vt d m = ComputeFinalFare vt 0 m) ∧
    (∀ (vt : VehicleType) (d : ℚ) (m : ℤ), m < 0 →
      ComputeFinalFare vt d m = ComputeFinalFare vt d 0) ∧
    (∀ (vt : VehicleType) (d : ℚ) (m : ℤ), VehicleType.Valid vt = false →
      ComputeFinalFare vt d m = ComputeFinalFare VehicleEconomy d m) ∧
    (∀ (vt : VehicleType) (d : ℚ) (m : ℤ),
      fareTariffBase vt ≤ ComputeFinalFare vt d m) := by
  refine ⟨?_, ?_, ?_, computeFinalFare_ge_base⟩
  · intro vt d m hd
    simp [ComputeFinalFare, hd]
  · intro vt d m hm
    simp [ComputeFinalFare, hm]
  · intro vt d m hv
    simp only [VehicleType.Valid, Bool.or_eq_false_iff] at hv
    simp [ComputeFinalFare, hv.1.1, hv.1.2, hv.2, VehicleEconomy]

/-- Witness for C10 at concrete inputs. -/
theorem C10_witness :
    ComputeFinalFare "ECONOMY" (-2 : ℚ) 3 = ComputeFinalFare "ECONOMY" (0 : ℚ) 3 ∧
    ComputeFinalFare "ECONOMY" (2 : ℚ) (-3) = ComputeFinalFare "ECONOMY" (2 : ℚ) 0 ∧
    ComputeFinalFare "SUV" (2 : ℚ) 3 = ComputeFinalFare VehicleEconomy (2 : ℚ) 3 ∧
    fareTariffBase "PREMIUM" ≤ ComputeFinalFare "PREMIUM" (1 : ℚ) 1 :=
  ⟨C10_computeFinalFare_total.1 "ECONOMY" (-2) 3 (by decide),
   C10_computeFinalFare_total.2.1 "ECONOMY" 2 (-3) (by decide),
   C10_computeFinalFare_total.2.2.1 "SUV" 2 3 (by decide),
   C10_computeFinalFare_total.2.2.2 "PREMIUM" 1 1⟩

/-! ## Claim C9 -/

/-- C9: the match request built at ride creation carries max_distance_km
equal to the pickup-to-destination trip distance (and timeout 30), and the
matching consumer ignores that field entirely: its candidate query always
uses the pickup point, the requested type, a 5 km radius and a limit of 10,
and the whole offer loop is invariant under changes to max_distance_km. -/
theorem C9_maxDistance_unused :
    (∀ (input : CreateRideInput) (rideID rideNumber correlationID : String),
      (rideService.buildRideMatchRequest input rideID rideNumber correlationID).MaxDistanceKM =
        HaversineKM input.PickupLatitude input.PickupLongitude
          input.DestinationLatitude input.DestinationLongitude) ∧
    (∀ (input : CreateRideInput) (rideID rideNumber correlationID : String),
      (rideService.buildRideMatchRequest input rideID rideNumber correlationID).TimeoutSeconds = 30) ∧
    (∀ (req : RideMatchRequest ℚ) (x : ℚ),
      driverLocationService.findNearbyArgs { req with MaxDistanceKM := x } =
        driverLocationService.findNearbyArgs req) ∧
    (∀ req : RideMatchRequest ℚ,
      (driverLocationService.findNearbyArgs req).RadiusKm = 5 ∧
      (driverLocationService.findNearbyArgs req).Limit = 10) ∧
    (∀ (env : MatchConsumerEnv ℚ) (req : RideMatchRequest ℚ) (x : ℚ),
      driverLocationService.sendRideOffers env { req with MaxDistanceKM := x } =
        driverLocationService.sendRideOffers env req) :=
  ⟨fun _ _ _ _ => rfl, fun _ _ _ _ => rfl, fun _ _ => rfl,
   fun _ => ⟨rfl, rfl⟩, fun _ _ _ => rfl⟩

/-! ## Claim C1 -/

/-- C1 (amended): the transition check admits exactly the edges REQUESTED to
MATCHED or CANCELLED, MATCHED to ARRIVED or CANCELLED, ARRIVED to IN_PROGRESS
or CANCELLED, IN_PROGRESS to COMPLETED or CANCELLED, and no edge out of
COMPLETED, CANCELLED or EN_ROUTE; the EN_ROUTE to ARRIVED step is instead
performed by Ride.MarkArrived, which succeeds exactly on an EN_ROUTE ride
with an assigned driver, and EN_ROUTE to CANCELLED by Ride.Cancel, which
succeeds exactly on non-terminal rides. -/
theorem C1_transition_check_edges :
    (∀ s t : Status, Status.CanTransitionTo s t = true ↔
      ((s = StatusRequested ∧ (t = StatusMatched ∨ t = StatusCancelled)) ∨
       (s = StatusMatched ∧ (t = StatusArrived ∨ t = StatusCancelled)) ∨
       (s = StatusArrived ∧ (t = StatusInProgress ∨ t = StatusCancelled)) ∨
       (s = StatusInProgress ∧ (t = StatusCompleted ∨ t = StatusCancelled)))) ∧
    (∀ (r : Ride) (now : Timestamp),
      (∃ r2, Ride.MarkArrived r now = .ok r2 ∧ r2.Status = StatusArrived) ↔
        ((match r.DriverID with | some d => d ≠ "" | none => False) ∧
          r.Status = StatusEnRoute)) ∧
    (∀ (r : Ride) (reason : String) (now : Timestamp),
      (∃ r2, Ride.Cancel r reason now = .ok r2 ∧ r2.Status = StatusCancelled) ↔
        Status.Terminal r.Status = false) := by
  refine ⟨?_, ?_, ?_⟩
  · intro s t
    unfold Status.CanTransitionTo
    split_ifs with h1 h2 h3 h4 h5 <;>
      simp_all [StatusRequested, StatusMatched, StatusEnRoute, StatusArrived,
        StatusInProgress, StatusCompleted, StatusCancelled]
  · intro r now
    unfold Ride.MarkArrived
    rcases hD : r.DriverID with _ | d
    · simp [hD]
    · by_cases hde : d = ""
      · simp [hD, hde]
      · by_cases hs : r.Status = StatusEnRoute
        · simp [hD, hde, hs, Ride.setStatus]
        · simp [hD, hde, hs]
  · intro r reason now
    unfold Ride.Cancel
    by_cases ht : Status.Terminal r.Status = true
    · simp [ht]
    · have ht2 : Status.Terminal r.Status = false := by
        simpa using ht
      simp [ht2, Ride.setStatus]

/-- Counterexample for C1 as stated: the transition check rejects both
EN_ROUTE to ARRIVED and EN_ROUTE to CANCELLED, because the switch in
Status.CanTransitionTo has no EN_ROUTE case. -/
theorem C1_counterexample_enroute :
    Status.CanTransitionTo StatusEnRoute StatusArrived = false ∧
    Status.CanTransitionTo StatusEnRoute StatusCancelled = false := by
  constructor <;> decide

/-! ## Claim C2 -/

/-- The timeline stamp never changes the status column. -/
lemma stampTimelineColumn_Status (row : Ride) (status : Status) (ts : Timestamp) :
    (stampTimelineColumn row status ts).Status = row.Status := by
  unfold stampTimelineColumn
  split_ifs <;> rfl

/-- C2 (amended): through RideRepo.UpdateStatus on an existing ride, writing
the current status again is a no-op success (even on a terminal row); a ride
whose current status is COMPLETED or CANCELLED rejects every write to a
different status; an invalid status string is rejected; but for a
non-terminal row every valid different status is accepted and stamped — the
lifecycle-graph edge is not checked by this function (the check lives in its
caller, rideService.setRideProgress). -/
theorem C2_updateStatus_behaviour :
    (∀ (row : Ride) (ts now : Timestamp),
      RideRepo.UpdateStatus row row.Status ts now = .ok (row, none)) ∧
    (∀ (row : Ride) (next : Status) (ts now : Timestamp),
      Status.Terminal row.Status = true → next ≠ row.Status →
      ∃ e, RideRepo.UpdateStatus row next ts now = .error e) ∧
    (∀ (row : Ride) (next : Status) (ts now : Timestamp),
      Status.Valid next = false → next ≠ row.Status →
      RideRepo.UpdateStatus row next ts now = .error "invalid ride status") ∧
    (∀ (row : Ride) (next : Status) (ts now : Timestamp),
      Status.Terminal row.Status = false → Status.Valid next = true →
      next ≠ row.Status →
      ∃ out ev, RideRepo.UpdateStatus row next ts now = .ok (out, some ev) ∧
        out.Status = next ∧ ev.oldStatus = row.Status ∧ ev.newStatus = next) := by
  refine ⟨?_, ?_, ?_, ?_⟩
  · intro row ts now
    simp [RideRepo.UpdateStatus]
  · intro row next ts now hterm hne
    unfold RideRepo.UpdateStatus
    dsimp only
    split_ifs with hcur hval hterm2
    · exact absurd (by simpa using hcur) fun h : row.Status = next => hne h.symm
    · exact ⟨_, rfl⟩
    · exact ⟨_, rfl⟩
    · exfalso
      apply hterm2
      simpa [Status.Terminal, StatusCompleted, StatusCancelled] using hterm
  · intro row next ts now hval hne
    unfold RideRepo.UpdateStatus
    dsimp only
    split_ifs with hcur hv hterm2
    · exact absurd (by simpa using hcur) fun h : row.Status = next => hne h.symm
    · rfl
    · exfalso
      have hvt : Status.Valid next = true := by simpa using hv
      rw [hval] at hvt
      exact Bool.false_ne_true hvt
    · exfalso
      have hvt : Status.Valid next = true := by simpa using hv
      rw [hval] at hvt
      exact Bool.false_ne_true hvt
  · intro row next ts now hterm hval hne
    unfold RideRepo.UpdateStatus
    dsimp only
    split_ifs with hcur hv hterm2
    · exact absurd (by simpa using hcur) fun h : row.Status = next => hne h.symm
    · exact absurd hval (by simpa using hv)
    · exfalso
      have hx : (row.Status == "COMPLETED" || row.Status == "CANCELLED") = false := by
        simpa [Status.Terminal, StatusCompleted, StatusCancelled] using hterm
      simp_all
    · refine ⟨_, _, rfl, ?_, rfl, rfl⟩
      rw [stampTimelineColumn_Status]

/-- Witness for C2 at concrete inputs: the no-op write, the terminal
rejection, the invalid-status rejection, and the unchecked REQUESTED to
COMPLETED write. -/
theorem C2_witness :
    RideRepo.UpdateStatus demoRide demoRide.Status 5 6 = .ok (demoRide, none) ∧
    (∃ e, RideRepo.UpdateStatus { demoRide with Status := "COMPLETED" } "MATCHED" 5 6 =
      .error e) ∧
    RideRepo.UpdateStatus demoRide "BOGUS" 5 6 = .error "invalid ride status" ∧
    (∃ out ev, RideRepo.UpdateStatus demoRide "COMPLETED" 5 6 = .ok (out, some ev) ∧
      out.Status = "COMPLETED" ∧ ev.oldStatus = demoRide.Status ∧
      ev.newStatus = "COMPLETED") :=
  ⟨C2_updateStatus_behaviour.1 demoRide 5 6,
   C2_updateStatus_behaviour.2.1 { demoRide with Status := "COMPLETED" } "MATCHED" 5 6
     (by decide) (by decide),
   C2_updateStatus_behaviour.2.2.1 demoRide "BOGUS" 5 6 (by decide) (by decide),
   C2_updateStatus_behaviour.2.2.2 demoRide "COMPLETED" 5 6
     (by decide) (by decide) (by decide)⟩

/-- Counterexample for C2 as stated: the edge REQUESTED to COMPLETED is
absent from the lifecycle graph, yet UpdateStatus accepts that write on a
REQUESTED row. -/
theorem C2_counterexample_no_edge_check :
    Status.CanTransitionTo StatusRequested StatusCompleted = false ∧
    (RideRepo.UpdateStatus demoRide StatusCompleted 5 6).isOk = true := by
  constructor <;> decide

/-! ## Claim C3 -/

/-- C3 (amended): on deadline expiry (or consumer failure) the supervisor
cancel path, applied to a ride that is still REQUESTED, moves the row to
CANCELLED and publishes exactly one ride.status.cancelled message; the
persisted cancellation reason is the literal string
"Not a single match was found in the allotted time" (the in-memory domain
entity is stamped NO_MATCH_TIMEOUT, but that value is discarded); a ride
that is no longer REQUESTED is left unchanged and nothing is published. -/
theorem C3_cancelOnNoMatch_behaviour :
    (∀ (rd : Ride) (now : Timestamp), rd.Status = StatusRequested →
      ∃ row msg, rideService.cancelOnNoMatch rd now = .ok (row, [msg]) ∧
        row.Status = StatusCancelled ∧
        row.CancellationReason = some "Not a single match was found in the allotted time" ∧
        row.CancelledAt = some now ∧
        msg.routingKey = "ride.status.cancelled" ∧
        msg.status = StatusCancelled ∧ msg.rideID = rd.ID) ∧
    (∀ (rd : Ride) (now : Timestamp), rd.Status ≠ StatusRequested →
      rideService.cancelOnNoMatch rd now = .ok (rd, [])) := by
  constructor
  · intro rd now hreq
    obtain ⟨rid, rnum, rca, rua, rpid, rdid, rvt, rst, rpr, rra, rma, raa, rsa,
      rcoa, rcna, rcr, ref, rff, rpc, rdc⟩ := rd
    simp only at hreq
    subst hreq
    exact ⟨_, _, rfl, rfl, rfl, rfl, rfl, rfl, rfl⟩
  · intro rd now hne
    have hbne : (rd.Status != StatusRequested) = true := by
      simpa using hne
    unfold rideService.cancelOnNoMatch
    simp [hbne]
    rfl

/-- Witness for C3 at concrete inputs: the REQUESTED demo ride is cancelled
with the literal reason, and the IN_PROGRESS demo ride is left unchanged. -/
theorem C3_witness :
    (∃ row msg, rideService.cancelOnNoMatch demoRide 7 = .ok (row, [msg]) ∧
      row.Status = StatusCancelled ∧
      row.CancellationReason = some "Not a single match was found in the allotted time" ∧
      row.CancelledAt = some 7 ∧
      msg.routingKey = "ride.status.cancelled" ∧
      msg.status = StatusCancelled ∧ msg.rideID = demoRide.ID) ∧
    rideService.cancelOnNoMatch demoInProgressRide 7 = .ok (demoInProgressRide, []) :=
  ⟨C3_cancelOnNoMatch_behaviour.1 demoRide 7 (by decide),
   C3_cancelOnNoMatch_behaviour.2 demoInProgressRide 7 (by decide)⟩

/-- Counterexample for C3 as stated: the persisted cancellation reason on the
timeout path is the human-readable sentence, not NO_MATCH_TIMEOUT. -/
theorem C3_counterexample_reason :
    rideService.cancelOnNoMatch demoRide 7 =
      .ok ({ demoRide with
             Status := "CANCELLED",
             CancellationReason :=
               some "Not a single match was found in the allotted time",
             CancelledAt := some 7, UpdatedAt := 7 },
           [{ exchange := "ride_topic", routingKey := "ride.status.cancelled",
              rideID := "ride-1", status := "CANCELLED", timestamp := 7 }]) ∧
    "Not a single match was found in the allotted time" ≠ "NO_MATCH_TIMEOUT" := by
  exact ⟨rfl, by decide⟩

/-! ## Claim C5 -/

/-- Bind of a successful Except value reduces to the continuation. -/
lemma except_bind_ok {ε α β : Type} (a : α) (f : α → Except ε β) :
    (Except.ok a : Except ε α) >>= f = f a := rfl

/-- C5 (amended): when the write happens (no current coordinate, or the
current one is at least 3 seconds old), the freshly stored is_current row and
the published fanout payload carry the identical input point; when the update
arrives less than 3 seconds after the previous one, the write is skipped and
the existing record is returned, but the fanout message is still published
and carries the input point, which can differ from the stored row. -/
theorem C5_location_write_and_fanout :
    (∀ (st : DriverLocState) (input : UpdateLocationInput) (newID : String)
        (now : Timestamp),
      st.driverExists = true →
      (st.current = none ∨ ∃ cur, st.current = some cur ∧ 3 ≤ now - cur.UpdatedAt) →
      strTrim input.DriverID ≠ "" →
      strTrim newID ≠ "" →
      -90 ≤ input.Latitude → input.Latitude ≤ 90 →
      -180 ≤ input.Longitude → input.Longitude ≤ 180 →
      ¬(input.Latitude = 0 ∧ input.Longitude = 0) →
      (∀ a, input.AccuracyMeters = some a → 0 ≤ a) →
      (∀ s, input.SpeedKmh = some s → 0 ≤ s) →
      (∀ h, input.HeadingDegrees = some h → 0 ≤ h ∧ h ≤ 360) →
      ∃ st2 out msg,
        driverLocationService.UpdateLocation st input newID now = .ok (st2, out, [msg]) ∧
        (∃ cur2, st2.current = some cur2 ∧ cur2.IsCurrent = true ∧
          cur2.Latitude = input.Latitude ∧ cur2.Longitude = input.Longitude) ∧
        msg.Lat = input.Latitude ∧ msg.Lng = input.Longitude) ∧
    (∀ (st : DriverLocState) (input : UpdateLocationInput) (newID : String)
        (now : Timestamp) (cur : StoredCoordinate),
      st.driverExists = true →
      st.current = some cur →
      now - cur.UpdatedAt < 3 →
      driverLocationService.UpdateLocation st input newID now =
        .ok (st, { CoordinateID := cur.ID, UpdatedAt := cur.UpdatedAt },
          [{ DriverID := input.DriverID,
             RideID := match st.activeRideID with | some r => r | none => "",
             Lat := input.Latitude, Lng := input.Longitude,
             SpeedKMH := match input.SpeedKmh with | some s => s | none => 0,
             HeadingDegrees := match input.HeadingDegrees with | some h => h | none => 0,
             Timestamp := now }])) := by
  constructor
  · intro st input newID now hex hstale hdid hnid hla1 hla2 hlo1 hlo2 hnz hacc hspd hhd
    have hval : Coordinate.Validate
        { ID := "", CreatedAt := none, UpdatedAt := none,
          EntityID := input.DriverID, EntityType := EntityTypeDriver, Address := "N/A",
          Latitude := input.Latitude, Longitude := input.Longitude,
          FareAmount := 0, DistanceKM := 0, DurationMinutes := 0,
          IsCurrent := true } = .ok () := by
      unfold Coordinate.Validate
      have b1 : (strTrim input.DriverID == "") = false := by simpa using hdid
      have b4 : (decide (input.Latitude < -90) || decide (input.Latitude > 90)) = false := by
        simp only [Bool.or_eq_false_iff, decide_eq_false_iff_not, not_lt]
        exact ⟨hla1, hla2⟩
      have b5 : (decide (input.Longitude < -180) || decide (input.Longitude > 180)) = false := by
        simp only [Bool.or_eq_false_iff, decide_eq_false_iff_not, not_lt]
        exact ⟨hlo1, hlo2⟩
      simp [b1, b4, b5, show EntityType.Valid EntityTypeDriver = true from rfl,
        show strTrim "N/A" = "N/A" from rfl]
    have hlhval : ∀ lh : LocationHistory,
        lh.CoordinateID = strTrim newID →
        lh.DriverID = strTrim input.DriverID →
        lh.Latitude = input.Latitude → lh.Longitude = input.Longitude →
        lh.AccuracyMeters = input.AccuracyMeters →
        lh.SpeedKMH = input.SpeedKmh →
        lh.HeadingDegrees = input.HeadingDegrees →
        lh.RecordedAt = some now →
        LocationHistory.Validate lh = .ok () := by
      intro lh e1 e2 e3 e4 e5 e6 e7 e8
      unfold LocationHistory.Validate
      have b1 : (lh.CoordinateID == "") = false := by
        rw [e1]; simpa using hnid
      have b2 : (lh.DriverID == "") = false := by
        rw [e2]; simpa using hdid
      have b3 : (lh.Latitude == 0 && lh.Longitude == 0) = false := by
        rw [e3, e4]
        rcases not_and_or.mp hnz with h | h <;> simp [h]
      have b4 : (decide (lh.Latitude < -90) || decide (lh.Latitude > 90)) = false := by
        rw [e3]
        simp only [Bool.or_eq_false_iff, decide_eq_false_iff_not, not_lt]
        exact ⟨hla1, hla2⟩
      have b5 : (decide (lh.Longitude < -180) || decide (lh.Longitude > 180)) = false := by
        rw [e4]
        simp only [Bool.or_eq_false_iff, decide_eq_false_iff_not, not_lt]
        exact ⟨hlo1, hlo2⟩
      have b6 : (match lh.AccuracyMeters with
          | some a => decide (a < 0) | none => false) = false := by
        rw [e5]
        rcases ha : input.AccuracyMeters with _ | a
        · rfl
        · simpa using not_lt.2 (hacc a ha)
      have b7 : (match lh.SpeedKMH with
          | some s => decide (s < 0) | none => false) = false := by
        rw [e6]
        rcases hs : input.SpeedKmh with _ | s
        · rfl
        · simpa using not_lt.2 (hspd s hs)
      have b8 : (match lh.HeadingDegrees with
          | some h => decide (h < 0) || decide (360 < h) | none => false) = false := by
        rw [e7]
        rcases hh : input.HeadingDegrees with _ | h
        · rfl
        · have hb := hhd h hh
          simp only [Bool.or_eq_false_iff, decide_eq_false_iff_not, not_lt]
          exact ⟨hb.1, hb.2⟩
      simp [b1, b2, b3, b4, b5, b6, b7, b8, e8,
        show ((some now : Option Timestamp) == none) = false from rfl]
    have hwrite : ∃ st2, updateLocationWrite st input st.activeRideID newID now =
        .ok (st2, { CoordinateID := newID, UpdatedAt := now }) ∧
        st2.current = some
          { ID := newID, Latitude := input.Latitude, Longitude := input.Longitude,
            UpdatedAt := now, IsCurrent := true } := by
      unfold updateLocationWrite upsertNewCoordinate
      dsimp only
      rw [if_neg (show ¬((!EntityType.Valid EntityTypeDriver) = true) by decide)]
      rw [hval]
      dsimp only
      rw [except_bind_ok]
      dsimp only
      unfold NewLocationHistory
      dsimp only
      rw [hlhval _ rfl rfl rfl rfl rfl rfl rfl rfl]
      dsimp only
      rw [except_bind_ok]
      exact ⟨_, rfl, rfl⟩
    obtain ⟨st2, hw, hcur2⟩ := hwrite
    unfold driverLocationService.UpdateLocation
    simp only [hex, Bool.not_true, Bool.false_eq_true, if_false]
    rcases hstale with hnone | ⟨cur, hcur, hge⟩
    · rw [hnone]
      dsimp only
      rw [hw, except_bind_ok]
      exact ⟨st2, _, _, rfl, ⟨_, hcur2, rfl, rfl, rfl⟩, rfl, rfl⟩
    · rw [hcur]
      dsimp only
      rw [if_neg (not_lt.2 hge)]
      rw [hw, except_bind_ok]
      exact ⟨st2, _, _, rfl, ⟨_, hcur2, rfl, rfl, rfl⟩, rfl, rfl⟩
  · intro st input newID now cur hex hcur hlt
    unfold driverLocationService.UpdateLocation
    simp only [hex, Bool.not_true, Bool.false_eq_true, if_false]
    rw [hcur]
    dsimp only
    rw [if_pos hlt]

/-- Witness for C5 at concrete inputs: a first write stores and publishes the
same point, and a rate-limited update returns the old record while the fanout
carries the new point. -/
theorem C5_witness :
    (∃ st2 out msg,
      driverLocationService.UpdateLocation
        { driverExists := true, activeRideID := none, current := none, history := [] }
        demoLocInput "coord-9" 10 = .ok (st2, out, [msg]) ∧
      (∃ cur2, st2.current = some cur2 ∧ cur2.IsCurrent = true ∧
        cur2.Latitude = demoLocInput.Latitude ∧ cur2.Longitude = demoLocInput.Longitude) ∧
      msg.Lat = demoLocInput.Latitude ∧ msg.Lng = demoLocInput.Longitude) ∧
    driverLocationService.UpdateLocation demoLocState demoLocInput "coord-2" 1 =
      .ok (demoLocState, { CoordinateID := "coord-1", UpdatedAt := 0 },
        [{ DriverID := demoLocInput.DriverID,
           RideID := match demoLocState.activeRideID with | some r => r | none => "",
           Lat := demoLocInput.Latitude, Lng := demoLocInput.Longitude,
           SpeedKMH := match demoLocInput.SpeedKmh with | some s => s | none => 0,
           HeadingDegrees := match demoLocInput.HeadingDegrees with
                             | some h => h | none => 0,
           Timestamp := 1 }]) :=
  ⟨C5_location_write_and_fanout.1
      { driverExists := true, activeRideID := none, current := none, history := [] }
      demoLocInput "coord-9" 10 rfl (Or.inl rfl) (by decide) (by decide) (by decide)
      (by decide) (by decide) (by decide) (by decide)
      (fun a ha => by simp [demoLocInput] at ha)
      (fun s hs => by simp [demoLocInput] at hs)
      (fun h hh => by simp [demoLocInput] at hh),
   C5_location_write_and_fanout.2 demoLocState demoLocInput "coord-2" 1
      { ID := "coord-1", Latitude := 1, Longitude := 1, UpdatedAt := 0, IsCurrent := true }
      rfl rfl (by norm_num)⟩

/-- Counterexample for C5 as stated: on the rate-limited path the stored
current row keeps the old point (1, 1) while the fanout payload carries the
new input point (2, 2), so the two are not identical. -/
theorem C5_counterexample_rate_limited :
    driverLocationService.UpdateLocation demoLocState demoLocInput "coord-2" 1 =
      .ok (demoLocState, { CoordinateID := "coord-1", UpdatedAt := 0 },
        [{ DriverID := "driver-1", RideID := "ride-2", Lat := 2, Lng := 2,
           SpeedKMH := 0, HeadingDegrees := 0, Timestamp := 1 }]) ∧
    demoLocState.current = some
      { ID := "coord-1", Latitude := 1, Longitude := 1, UpdatedAt := 0,
        IsCurrent := true } ∧
    (1 : ℚ) ≠ 2 := by
  refine ⟨?_, rfl, by norm_num⟩
  unfold driverLocationService.UpdateLocation demoLocState demoLocInput
  norm_num

/-! ## Claim C6 -/

/-- C6: each candidate with an open socket and a successful distance query
and socket push receives an offer whose driver_earnings is 0.8 times the
estimated fare and whose expires_at is the send time plus timeout_seconds;
every delivered offer has those two properties; and a candidate without an
open socket receives nothing. -/
theorem C6_offer_contents :
    (∀ (env : MatchConsumerEnv ℚ) (req : RideMatchRequest ℚ) (d : String),
      env.isDriverConnected d = false →
      ∀ o ∈ driverLocationService.sendRideOffers env req, o.1 ≠ d) ∧
    (∀ (env : MatchConsumerEnv ℚ) (req : RideMatchRequest ℚ),
      ∀ o ∈ driverLocationService.sendRideOffers env req,
        o.2.DriverEarnings = req.EstimatedFare * 0.8 ∧
        o.2.ExpiresAt = env.now + (req.TimeoutSeconds : ℚ)) ∧
    (∀ (env : MatchConsumerEnv ℚ) (req : RideMatchRequest ℚ) (drv : DriverRec) (km : ℚ),
      drv ∈ env.candidates →
      env.isDriverConnected drv.ID = true →
      env.distanceToPickup drv.ID = some km →
      env.sendOk drv.ID = true →
      (drv.ID,
        { type := "ride_offer", OfferID := env.offerID drv.ID,
          RideID := req.RideID, RideNumber := req.RideNumber,
          Pickup := req.PickupLocation, Destination := req.Destination,
          EstimatedFare := req.EstimatedFare,
          DriverEarnings := req.EstimatedFare * 0.8,
          DistanceToPickupKm := km,
          EstimatedRideMin := env.estimatedRideMin,
          ExpiresAt := env.now + (req.TimeoutSeconds : ℚ) }) ∈
        driverLocationService.sendRideOffers env req) := by
  refine ⟨?_, ?_, ?_⟩
  · intro env req d hd o ho
    simp only [driverLocationService.sendRideOffers, List.mem_filterMap] at ho
    obtain ⟨drv, _hmem, hf⟩ := ho
    by_cases hc : env.isDriverConnected drv.ID
    · rcases hdist : env.distanceToPickup drv.ID with _ | km
      · simp [hc, hdist] at hf
      · by_cases hs : env.sendOk drv.ID
        · simp only [hc, hdist, hs, Bool.not_true, Bool.false_eq_true, if_false,
            if_true, Option.some.injEq] at hf
          subst hf
          intro heq
          have heq2 : drv.ID = d := heq
          rw [heq2] at hc
          rw [hc] at hd
          cases hd
        · simp [hc, hdist, hs] at hf
    · simp [hc] at hf
  · intro env req o ho
    simp only [driverLocationService.sendRideOffers, List.mem_filterMap] at ho
    obtain ⟨drv, _hmem, hf⟩ := ho
    by_cases hc : env.isDriverConnected drv.ID
    · rcases hdist : env.distanceToPickup drv.ID with _ | km
      · simp [hc, hdist] at hf
      · by_cases hs : env.sendOk drv.ID
        · simp only [hc, hdist, hs, Bool.not_true, Bool.false_eq_true, if_false,
            if_true, Option.some.injEq] at hf
          subst hf
          exact ⟨rfl, rfl⟩
        · simp [hc, hdist, hs] at hf
    · simp [hc] at hf
  · intro env req drv km hmem hc hdist hs
    simp only [driverLocationService.sendRideOffers, List.mem_filterMap]
    exact ⟨drv, hmem, by simp [hc, hdist, hs]⟩

/-- Witness for C6 at a concrete environment with one connected candidate. -/
theorem C6_witness :
    (demoDriver.ID,
      { type := "ride_offer", OfferID := demoMatchEnv.offerID demoDriver.ID,
        RideID := demoMatchRequest.RideID, RideNumber := demoMatchRequest.RideNumber,
        Pickup := demoMatchRequest.PickupLocation,
        Destination := demoMatchRequest.Destination,
        EstimatedFare := demoMatchRequest.EstimatedFare,
        DriverEarnings := demoMatchRequest.EstimatedFare * 0.8,
        DistanceToPickupKm := 2,
        EstimatedRideMin := demoMatchEnv.estimatedRideMin,
        ExpiresAt := demoMatchEnv.now + (demoMatchRequest.TimeoutSeconds : ℚ) }) ∈
      driverLocationService.sendRideOffers demoMatchEnv demoMatchRequest :=
  C6_offer_contents.2.2 demoMatchEnv demoMatchRequest demoDriver 2
    (by decide) rfl rfl rfl

/-! ## Claim C7 -/

/-- C7: completing an IN_PROGRESS ride assigned to the driver recomputes the
final fare with the same ComputeFinalFare formula from the driver-reported
actuals, moves the ride to COMPLETED, sets the driver AVAILABLE, and adds one
ride and the final fare to the driver (and session) counters, all as one
atomic state transformation. -/
theorem C7_completeRide_effects :
    ∀ (w : CompleteRideWorld) (input : CompleteRideInput) (now : Timestamp),
      w.driver.ID = input.DriverID →
      w.ride.ID = input.RideID →
      w.ride.DriverID = some input.DriverID →
      w.ride.Status = StatusInProgress →
      w.session.DriverID = input.DriverID →
      w.session.EndedAt = none →
      ∃ w2 res, driverLocationService.CompleteRide w input now = .ok (w2, res) ∧
        w2.ride.Status = StatusCompleted ∧
        w2.ride.FinalFare = some (ComputeFinalFare w.ride.VehicleType
          input.ActualDistanceKM input.ActualDurationMinutes) ∧
        w2.ride.CompletedAt = some now ∧
        w2.driver.Status = DriverStatusAvailable ∧
        w2.driver.TotalRides = w.driver.TotalRides + 1 ∧
        w2.driver.TotalEarnings = w.driver.TotalEarnings + ComputeFinalFare
          w.ride.VehicleType input.ActualDistanceKM input.ActualDurationMinutes ∧
        w2.session.TotalRides = w.session.TotalRides + 1 ∧
        w2.session.TotalEarnings = w.session.TotalEarnings + ComputeFinalFare
          w.ride.VehicleType input.ActualDistanceKM input.ActualDurationMinutes ∧
        res.DriverEarnings = ComputeFinalFare w.ride.VehicleType
          input.ActualDistanceKM input.ActualDurationMinutes ∧
        res.Status = DriverStatusAvailable ∧ res.CompletedAt = now := by
  intro w input now h1 h2 h3 h4 h5 h6
  have hfare := computeFinalFare_nonneg w.ride.VehicleType
    input.ActualDistanceKM input.ActualDurationMinutes
  unfold driverLocationService.CompleteRide
  dsimp only
  rw [if_neg (by simp [h1]), if_neg (by simp [h2]), h3]
  dsimp only
  rw [if_neg (by simp)]
  have hcomp : Ride.Complete w.ride (ComputeFinalFare w.ride.VehicleType
      input.ActualDistanceKM input.ActualDurationMinutes) now =
      .ok (Ride.setStatus { w.ride with
        CompletedAt := some now,
        FinalFare := some (ComputeFinalFare w.ride.VehicleType
          input.ActualDistanceKM input.ActualDurationMinutes) } StatusCompleted now) := by
    unfold Ride.Complete
    rw [if_neg (by simp [h4])]
  rw [hcomp, except_bind_ok]
  dsimp only [Ride.setStatus]
  have hrepo : RideRepo.Complete w.ride (ComputeFinalFare w.ride.VehicleType
      input.ActualDistanceKM input.ActualDurationMinutes) now now =
      .ok ({ w.ride with
              Status := "COMPLETED",
              FinalFare := some (ComputeFinalFare w.ride.VehicleType
                input.ActualDistanceKM input.ActualDurationMinutes),
              CompletedAt := some now, UpdatedAt := now },
           some { rideID := w.ride.ID, eventType := "RIDE_COMPLETED",
                  oldStatus := w.ride.Status, newStatus := "COMPLETED",
                  timestamp := now }) := by
    unfold RideRepo.Complete
    dsimp only
    rw [if_neg (by simp [h4, StatusInProgress]), if_neg (by simp [h4, StatusInProgress]),
      if_neg (by simp [h4, StatusInProgress])]
  rw [hrepo, except_bind_ok]
  dsimp only
  have hds : DriverRepo.UpdateStatus w.driver DriverStatusAvailable =
      .ok { w.driver with Status := DriverStatusAvailable } := by
    unfold DriverRepo.UpdateStatus
    rw [if_neg (by decide)]
  rw [hds, except_bind_ok]
  have hinc : DriverRepo.IncrementCountersOnComplete
      { w.driver with Status := DriverStatusAvailable }
      (ComputeFinalFare w.ride.VehicleType input.ActualDistanceKM
        input.ActualDurationMinutes) =
      .ok { w.driver with
             Status := DriverStatusAvailable,
             TotalRides := w.driver.TotalRides + 1,
             TotalEarnings := w.driver.TotalEarnings + ComputeFinalFare
               w.ride.VehicleType input.ActualDistanceKM input.ActualDurationMinutes } := by
    unfold DriverRepo.IncrementCountersOnComplete
    rw [if_neg (not_lt.2 hfare)]
  rw [hinc, except_bind_ok]
  rw [if_neg (by simp [h5, h6])]
  have hadd : DriverSession.AddRide w.session (ComputeFinalFare w.ride.VehicleType
      input.ActualDistanceKM input.ActualDurationMinutes) =
      .ok { w.session with
             TotalRides := w.session.TotalRides + 1,
             TotalEarnings := w.session.TotalEarnings + ComputeFinalFare
               w.ride.VehicleType input.ActualDistanceKM input.ActualDurationMinutes } := by
    unfold DriverSession.AddRide
    rw [if_neg (by simp [h6]), if_neg (not_lt.2 hfare)]
  rw [hadd, except_bind_ok]
  dsimp only [DriverSessionRepo.IncrementCounters]
  exact ⟨_, _, rfl, rfl, rfl, rfl, rfl, rfl, rfl, rfl, rfl, rfl, rfl, rfl⟩

/-- Witness for C7: the concrete IN_PROGRESS demo ride completed by its
driver with actual distance 5.1 km and duration 16 minutes. -/
theorem C7_witness :
    ∃ w2 res, driverLocationService.CompleteRide
        { driver := demoDriver, ride := demoInProgressRide, session := demoSession }
        { DriverID := "driver-1", RideID := "ride-2",
          ActualDistanceKM := 5.1, ActualDurationMinutes := 16 } 40 = .ok (w2, res) ∧
      w2.ride.Status = StatusCompleted ∧
      w2.ride.FinalFare = some (ComputeFinalFare demoInProgressRide.VehicleType
        (5.1 : ℚ) 16) ∧
      w2.ride.CompletedAt = some 40 ∧
      w2.driver.Status = DriverStatusAvailable ∧
      w2.driver.TotalRides = demoDriver.TotalRides + 1 ∧
      w2.driver.TotalEarnings = demoDriver.TotalEarnings +
        ComputeFinalFare demoInProgressRide.VehicleType (5.1 : ℚ) 16 ∧
      w2.session.TotalRides = demoSession.TotalRides + 1 ∧
      w2.session.TotalEarnings = demoSession.TotalEarnings +
        ComputeFinalFare demoInProgressRide.VehicleType (5.1 : ℚ) 16 ∧
      res.DriverEarnings = ComputeFinalFare demoInProgressRide.VehicleType (5.1 : ℚ) 16 ∧
      res.Status = DriverStatusAvailable ∧ res.CompletedAt = 40 :=
  C7_completeRide_effects
    { driver := demoDriver, ride := demoInProgressRide, session := demoSession }
    { DriverID := "driver-1", RideID := "ride-2",
      ActualDistanceKM := 5.1, ActualDurationMinutes := 16 } 40
    (by decide) (by decide) (by decide) (by decide) (by decide) (by decide)

/-! ## Claim C8 -/

/-- C8 (amended): Coordinate.Validate performs range checks only, so a zero
latitude or longitude (or both) passes coordinate validation and ride
creation does not reject such points; only the location-history validation
rejects a sample whose latitude and longitude are both zero, so a location
update with a single zero component is accepted by the whole pipeline. -/
theorem C8_zero_coordinates :
    (∀ lat lng : ℚ, -90 ≤ lat → lat ≤ 90 → -180 ≤ lng → lng ≤ 180 →
      Coordinate.Validate
        { ID := "", CreatedAt := none, UpdatedAt := none, EntityID := "p-1",
          EntityType := EntityTypePassenger, Address := "Abay Avenue 1",
          Latitude := lat, Longitude := lng, FareAmount := 0, DistanceKM := 0,
          DurationMinutes := 0, IsCurrent := true } = .ok ()) ∧
    (∀ lh : LocationHistory, lh.Latitude = 0 → lh.Longitude = 0 →
      lh.CoordinateID ≠ "" → lh.DriverID ≠ "" →
      LocationHistory.Validate lh = .error "coordinates cannot be zero") ∧
    (driverLocationService.UpdateLocation
      { driverExists := true, activeRideID := none, current := none, history := [] }
      demoZeroLatInput "coord-9" 10).isOk = true := by
  refine ⟨?_, ?_, ?_⟩
  · intro lat lng hla1 hla2 hlo1 hlo2
    unfold Coordinate.Validate
    have b4 : (decide (lat < -90) || decide (lat > 90)) = false := by
      simp only [Bool.or_eq_false_iff, decide_eq_false_iff_not, not_lt]
      exact ⟨hla1, hla2⟩
    have b5 : (decide (lng < -180) || decide (lng > 180)) = false := by
      simp only [Bool.or_eq_false_iff, decide_eq_false_iff_not, not_lt]
      exact ⟨hlo1, hlo2⟩
    simp [b4, b5, show (strTrim "p-1" == "") = false from rfl,
      show EntityType.Valid EntityTypePassenger = true from rfl,
      show (strTrim "Abay Avenue 1" == "") = false from rfl]
  · intro lh hlat hlng hcid hdid
    unfold LocationHistory.Validate
    have b1 : (lh.CoordinateID == "") = false := by simpa using hcid
    have b2 : (lh.DriverID == "") = false := by simpa using hdid
    have b3 : (lh.Latitude == 0 && lh.Longitude == 0) = true := by
      rw [hlat, hlng]
      rfl
    simp [b1, b2, b3]
  · rfl

/-- Witness for C8: zero latitude with longitude 76 passes coordinate
validation, and a both-zero history sample is rejected. -/
theorem C8_witness :
    Coordinate.Validate
      { ID := "", CreatedAt := none, UpdatedAt := none, EntityID := "p-1",
        EntityType := EntityTypePassenger, Address := "Abay Avenue 1",
        Latitude := 0, Longitude := 76, FareAmount := 0, DistanceKM := 0,
        DurationMinutes := 0, IsCurrent := true } = .ok () ∧
    LocationHistory.Validate
      { CoordinateID := "coord-1", DriverID := "driver-1", Latitude := 0,
        Longitude := 0, AccuracyMeters := none, SpeedKMH := none,
        HeadingDegrees := none, RecordedAt := some 10, RideID := none } =
      .error "coordinates cannot be zero" :=
  ⟨C8_zero_coordinates.1 0 76 (by decide) (by decide) (by decide) (by decide),
   C8_zero_coordinates.2.1
     { CoordinateID := "coord-1", DriverID := "driver-1", Latitude := 0,
       Longitude := 0, AccuracyMeters := none, SpeedKMH := none,
       HeadingDegrees := none, RecordedAt := some 10, RideID := none }
     rfl rfl (by decide) (by decide)⟩

/-- Counterexample for C8 as stated: coordinates with a zero latitude, a zero
longitude, and even both zero pass Coordinate.Validate, so zero is not
treated as unset by the validation the ride creation path runs. -/
theorem C8_counterexample_zero_accepted :
    Coordinate.Validate
      { ID := "", CreatedAt := none, UpdatedAt := none, EntityID := "p-1",
        EntityType := EntityTypePassenger, Address := "Abay Avenue 1",
        Latitude := 0, Longitude := 76, FareAmount := 0, DistanceKM := 0,
        DurationMinutes := 0, IsCurrent := true } = .ok () ∧
    Coordinate.Validate
      { ID := "", CreatedAt := none, UpdatedAt := none, EntityID := "p-1",
        EntityType := EntityTypePassenger, Address := "Abay Avenue 1",
        Latitude := 43, Longitude := 0, FareAmount := 0, DistanceKM := 0,
        DurationMinutes := 0, IsCurrent := true } = .ok () ∧
    Coordinate.Validate
      { ID := "", CreatedAt := none, UpdatedAt := none, EntityID := "p-1",
        EntityType := EntityTypePassenger, Address := "Abay Avenue 1",
        Latitude := 0, Longitude := 0, FareAmount := 0, DistanceKM := 0,
        DurationMinutes := 0, IsCurrent := true } = .ok () ∧
    (driverLocationService.UpdateLocation
      { driverExists := true, activeRideID := none, current := none, history := [] }
      demoZeroLatInput "coord-9" 10).isOk = true :=
  ⟨rfl, rfl, rfl, rfl⟩

/-! ## Claim C4 -/

/-! ## Elementary bounds on sin, cos and arctan -/

lemma cos_four_mul_sin (y : ℝ) :
    Real.cos (4 * y) = 2 * (1 - 2 * Real.sin y ^ 2) ^ 2 - 1 := by
  have h1 : Real.cos (2 * y) = 1 - 2 * Real.sin y ^ 2 := by
    rw [Real.cos_two_mul]
    nlinarith [Real.sin_sq_add_cos_sq y]
  have h2 : (4 : ℝ) * y = 2 * (2 * y) := by ring
  rw [h2, Real.cos_two_mul, h1]

lemma sin_small_bounds (x L U : ℝ) (h0 : 0 < L) (hL : L < x) (hU : x < U)
    (hU1 : U ≤ 1) : L - U ^ 3 / 4 < Real.sin x ∧ Real.sin x < U := by
  have hx0 : 0 < x := h0.trans hL
  have hx1 : x ≤ 1 := le_trans hU.le hU1
  constructor
  · have h := Real.sin_gt_sub_cube hx0 hx1
    have hx3 : x ^ 3 < U ^ 3 := pow_lt_pow_left₀ hU hx0.le (by norm_num)
    nlinarith [h]
  · exact (Real.sin_lt hx0).trans hU

lemma cos_from_sin_bounds (y sl su : ℝ) (h0 : 0 < sl) (hsl : sl < Real.sin y)
    (hsu : Real.sin y < su) (hsu1 : su ≤ 1 / 4) :
    2 * (1 - 2 * su ^ 2) ^ 2 - 1 < Real.cos (4 * y) ∧
    Real.cos (4 * y) < 2 * (1 - 2 * sl ^ 2) ^ 2 - 1 := by
  rw [cos_four_mul_sin]
  have hu2 : Real.sin y ^ 2 < su ^ 2 := by nlinarith
  have hu1 : sl ^ 2 < Real.sin y ^ 2 := by nlinarith
  have ha1 : 0 < 1 - Real.sin y ^ 2 - su ^ 2 := by nlinarith
  have ha2 : 0 < 1 - Real.sin y ^ 2 - sl ^ 2 := by nlinarith
  constructor
  · nlinarith [mul_pos (sub_pos.2 hu2) ha1]
  · nlinarith [mul_pos (sub_pos.2 hu1) ha2]

lemma arctan_lt_self (t : ℝ) (h : 0 < t) : Real.arctan t < t := by
  have h1 : 0 < Real.arctan t := by
    have h2 : Real.arctan 0 < Real.arctan t := Real.arctan_strictMono h
    rwa [Real.arctan_zero] at h2
  have h3 := Real.lt_tan h1 (Real.arctan_lt_pi_div_two t)
  rwa [Real.tan_arctan] at h3

lemma arctan_gt_sub_cube (t : ℝ) (h0 : 0 < t) (h1 : t ≤ 1) :
    t - t ^ 3 < Real.arctan t := by
  have ha : 0 < Real.arctan t := by
    have h2 : Real.arctan 0 < Real.arctan t := Real.arctan_strictMono h0
    rwa [Real.arctan_zero] at h2
  have hs := Real.sin_lt ha
  rw [Real.sin_arctan] at hs
  have hsq0 : (0 : ℝ) < 1 + t ^ 2 := by positivity
  have hsq : 0 < Real.sqrt (1 + t ^ 2) := Real.sqrt_pos.2 hsq0
  have hss : Real.sqrt (1 + t ^ 2) ^ 2 = 1 + t ^ 2 := Real.sq_sqrt hsq0.le
  have ht2 : 0 ≤ 1 - t ^ 2 := by nlinarith
  have hX2 : ((1 - t ^ 2) * Real.sqrt (1 + t ^ 2)) ^ 2 ≤ 1 := by
    rw [mul_pow, hss]
    nlinarith [mul_nonneg (sq_nonneg (t ^ 2)) ht2, sq_nonneg t]
  have key : (1 - t ^ 2) * Real.sqrt (1 + t ^ 2) ≤ 1 := by
    nlinarith [hX2, sq_nonneg ((1 - t ^ 2) * Real.sqrt (1 + t ^ 2) - 1)]
  have hstep : t - t ^ 3 ≤ t / Real.sqrt (1 + t ^ 2) := by
    rw [le_div_iff₀ hsq]
    nlinarith [mul_le_mul_of_nonneg_left key h0.le]
  linarith

lemma atan2_of_pos (y x : ℝ) (hx : 0 < x) : atan2 y x = Real.arctan (y / x) := by
  unfold atan2
  rw [if_pos hx]

/-! ## Numeric bounds for the S1 haversine evaluation -/

lemma s1_angle1_sin_bounds :
    (0.186986594 : ℝ) < Real.sin (43.238949 * Real.pi / 720) ∧
    Real.sin (43.238949 * Real.pi / 720) < 0.188665528 := by
  have hpl := Real.pi_gt_d6
  have hpu := Real.pi_lt_d6
  have hb := sin_small_bounds (43.238949 * Real.pi / 720) 0.188665467 0.188665528
    (by norm_num) (by nlinarith) (by nlinarith) (by norm_num)
  exact ⟨lt_trans (by norm_num) hb.1, hb.2⟩

lemma s1_cos_lat1_bounds :
    (0.725378 : ℝ) < Real.cos (43.238949 * Real.pi / 180) ∧
    Real.cos (43.238949 * Real.pi / 180) < 0.730068 := by
  have hs := s1_angle1_sin_bounds
  have hb := cos_from_sin_bounds (43.238949 * Real.pi / 720) 0.186986594 0.188665528
    (by norm_num) hs.1 hs.2 (by norm_num)
  have he : 43.238949 * Real.pi / 180 = 4 * (43.238949 * Real.pi / 720) := by ring
  rw [he]
  exact ⟨lt_trans (by norm_num) hb.1, lt_trans hb.2 (by norm_num)⟩

lemma s1_angle2_sin_bounds :
    (0.187033526 : ℝ) < Real.sin (43.25 * Real.pi / 720) ∧
    Real.sin (43.25 * Real.pi / 720) < 0.188713747 := by
  have hpl := Real.pi_gt_d6
  have hpu := Real.pi_lt_d6
  have hb := sin_small_bounds (43.25 * Real.pi / 720) 0.188713686 0.188713747
    (by norm_num) (by nlinarith) (by nlinarith) (by norm_num)
  exact ⟨lt_trans (by norm_num) hb.1, hb.2⟩

lemma s1_cos_lat2_bounds :
    (0.725243 : ℝ) < Real.cos (43.25 * Real.pi / 180) ∧
    Real.cos (43.25 * Real.pi / 180) < 0.729938 := by
  have hs := s1_angle2_sin_bounds
  have hb := cos_from_sin_bounds (43.25 * Real.pi / 720) 0.187033526 0.188713747
    (by norm_num) hs.1 hs.2 (by norm_num)
  have he : 43.25 * Real.pi / 180 = 4 * (43.25 * Real.pi / 720) := by ring
  rw [he]
  exact ⟨lt_trans (by norm_num) hb.1, lt_trans hb.2 (by norm_num)⟩

lemma s1_sin_da_bounds :
    (0.000096438146 : ℝ) < Real.sin ((43.25 - 43.238949) * Real.pi / 180 / 2) ∧
    Real.sin ((43.25 - 43.238949) * Real.pi / 180 / 2) < 0.000096438179 := by
  have hpl := Real.pi_gt_d6
  have hpu := Real.pi_lt_d6
  have hb := sin_small_bounds ((43.25 - 43.238949) * Real.pi / 180 / 2)
    0.000096438147 0.000096438179 (by norm_num) (by nlinarith) (by nlinarith)
    (by norm_num)
  exact ⟨lt_trans (by norm_num) hb.1, hb.2⟩

lemma s1_sin_db_bounds :
    (0.000526138083 : ℝ) < Real.sin ((76.95 - 76.889709) * Real.pi / 180 / 2) ∧
    Real.sin ((76.95 - 76.889709) * Real.pi / 180 / 2) < 0.000526138288 := by
  have hpl := Real.pi_gt_d6
  have hpu := Real.pi_lt_d6
  have hb := sin_small_bounds ((76.95 - 76.889709) * Real.pi / 180 / 2)
    0.00052613812 0.000526138288 (by norm_num) (by nlinarith) (by nlinarith)
    (by norm_num)
  exact ⟨lt_trans (by norm_num) hb.1, hb.2⟩

lemma s1_a_bounds :
    (0.000000154929 : ℝ) <
      Real.sin ((43.25 - 43.238949) * Real.pi / 180 / 2) *
          Real.sin ((43.25 - 43.238949) * Real.pi / 180 / 2) +
        Real.cos (43.238949 * Real.pi / 180) * Real.cos (43.25 * Real.pi / 180) *
          (Real.sin ((76.95 - 76.889709) * Real.pi / 180 / 2) *
            Real.sin ((76.95 - 76.889709) * Real.pi / 180 / 2)) ∧
    Real.sin ((43.25 - 43.238949) * Real.pi / 180 / 2) *
          Real.sin ((43.25 - 43.238949) * Real.pi / 180 / 2) +
        Real.cos (43.238949 * Real.pi / 180) * Real.cos (43.25 * Real.pi / 180) *
          (Real.sin ((76.95 - 76.889709) * Real.pi / 180 / 2) *
            Real.sin ((76.95 - 76.889709) * Real.pi / 180 / 2)) <
      0.0000001568199 := by
  obtain ⟨hda1, hda2⟩ := s1_sin_da_bounds
  obtain ⟨hdb1, hdb2⟩ := s1_sin_db_bounds
  obtain ⟨hc11, hc12⟩ := s1_cos_lat1_bounds
  obtain ⟨hc21, hc22⟩ := s1_cos_lat2_bounds
  set sda := Real.sin ((43.25 - 43.238949) * Real.pi / 180 / 2) with hsda
  set sdb := Real.sin ((76.95 - 76.889709) * Real.pi / 180 / 2) with hsdb
  set c1 := Real.cos (43.238949 * Real.pi / 180) with hco1
  set c2 := Real.cos (43.25 * Real.pi / 180) with hco2
  have hda0 : (0 : ℝ) < sda := lt_trans (by norm_num) hda1
  have hdb0 : (0 : ℝ) < sdb := lt_trans (by norm_num) hdb1
  have hP1 : (0.526075 : ℝ) < c1 * c2 := by nlinarith
  have hP2 : c1 * c2 < 0.532905 := by nlinarith
  have hq1 : (0.000000009300316 : ℝ) < sda * sda := by nlinarith
  have hq2 : sda * sda < 0.0000000093003224 := by nlinarith
  have hr1 : (0.000000276821282 : ℝ) < sdb * sdb := by nlinarith
  have hr2 : sdb * sdb < 0.000000276821499 := by nlinarith
  have hs1 : (0.000000145628747 : ℝ) < c1 * c2 * (sdb * sdb) := by nlinarith
  have hs2 : c1 * c2 * (sdb * sdb) < 0.000000147519561 := by nlinarith
  constructor
  · nlinarith
  · nlinarith

lemma haversine_core_bounds (A : ℝ) (h1 : (0.000000154929 : ℝ) < A)
    (h2 : A < 0.0000001568199) :
    (5.01 : ℝ) < 6371 * (2 * atan2 (Real.sqrt A) (Real.sqrt (1 - A))) ∧
    6371 * (2 * atan2 (Real.sqrt A) (Real.sqrt (1 - A))) < 5.05 := by
  have hA0 : (0 : ℝ) < A := by nlinarith
  have h1A : (0 : ℝ) < 1 - A := by nlinarith
  have hd0 : 0 < Real.sqrt (1 - A) := Real.sqrt_pos.2 h1A
  rw [atan2_of_pos _ _ hd0]
  set t := Real.sqrt A / Real.sqrt (1 - A) with htdef
  have ht0 : 0 < t := div_pos (Real.sqrt_pos.2 hA0) hd0
  have hsqAl : (0.00039361 : ℝ) < Real.sqrt A :=
    (Real.lt_sqrt (by norm_num)).2 (by nlinarith)
  have hsqAu : Real.sqrt A < 0.000396005 :=
    (Real.sqrt_lt' (by norm_num)).2 (by nlinarith)
  have hdu : Real.sqrt (1 - A) ≤ 1 := by
    calc Real.sqrt (1 - A) ≤ Real.sqrt 1 := Real.sqrt_le_sqrt (by nlinarith)
    _ = 1 := Real.sqrt_one
  have hdl : (0.999999921 : ℝ) < Real.sqrt (1 - A) :=
    (Real.lt_sqrt (by norm_num)).2 (by nlinarith)
  have htl : (0.00039361 : ℝ) < t := by
    have h3 : Real.sqrt A ≤ t := by
      rw [htdef, le_div_iff₀ hd0]
      exact mul_le_of_le_one_right (Real.sqrt_nonneg A) hdu
    exact lt_of_lt_of_le hsqAl h3
  have htu : t < 0.000396006 := by
    rw [htdef, div_lt_iff₀ hd0]
    nlinarith [hdl, hsqAu]
  have hatu : Real.arctan t < 0.000396006 := (arctan_lt_self t ht0).trans htu
  have hatl : (0.000393609 : ℝ) < Real.arctan t := by
    have h4 := arctan_gt_sub_cube t ht0 (by linarith)
    have ht3 : t ^ 3 < (0.000396006 : ℝ) ^ 3 := pow_lt_pow_left₀ htu ht0.le (by norm_num)
    nlinarith [h4, htl, ht3]
  constructor
  · nlinarith [hatl]
  · nlinarith [hatu]

lemma s1Distance_bounds : (5.01 : ℝ) < s1Distance ∧ s1Distance < 5.05 := by
  have ha := s1_a_bounds
  unfold s1Distance HaversineKM
  dsimp only
  exact haversine_core_bounds _ ha.1 ha.2

lemma s1DurationMinutes_eq : s1DurationMinutes = 15 := by
  obtain ⟨h1, h2⟩ := s1Distance_bounds
  unfold s1DurationMinutes EstimateDurationMinutes
  dsimp only
  have hc : Int.ceil (s1Distance / 21 * 60) = 15 := by
    rw [Int.ceil_eq_iff]
    constructor
    · push_cast
      nlinarith
    · push_cast
      nlinarith
  rw [hc]
  norm_num

lemma s1EstimatedFare_bounds :
    (1751 : ℝ) < s1EstimatedFare ∧ s1EstimatedFare < 1755 := by
  obtain ⟨h1, h2⟩ := s1Distance_bounds
  have hd : ¬ s1Distance < 0 := by nlinarith
  unfold s1EstimatedFare
  rw [s1DurationMinutes_eq]
  simp only [ComputeFinalFare, beq_self_eq_true, if_true, if_neg hd,
    show ¬ (15 : ℤ) < 0 by norm_num, if_false]
  push_cast
  constructor
  · nlinarith
  · nlinarith

/-- C4: the fare estimate follows base + per-km * km + per-min * min with the
tariff (500, 100, 50) for ECONOMY, (800, 120, 60) for PREMIUM and
(1000, 150, 75) for XL, and the duration estimate is ceil(km / 21 * 60) with a
minimum of one minute; for the S1 coordinates the duration estimate is 15
minutes, but the estimated fare lies strictly between 1751 and 1755 (it is
about 1753.57, since the haversine distance is about 5.036 km), not 1757. -/
theorem C4_fare_formula_and_s1 :
    (∀ d : ℚ, ∀ m : ℤ, 0 ≤ d → 0 ≤ m →
        ComputeFinalFare VehicleEconomy d m = 500 + 100 * d + 50 * (m : ℚ) ∧
        ComputeFinalFare VehiclePremium d m = 800 + 120 * d + 60 * (m : ℚ) ∧
        ComputeFinalFare VehicleXL d m = 1000 + 150 * d + 75 * (m : ℚ)) ∧
    (∀ d : ℚ, EstimateDurationMinutes d = max (Int.ceil (d / 21 * 60)) 1) ∧
    s1DurationMinutes = 15 ∧
    (1751 : ℝ) < s1EstimatedFare ∧ s1EstimatedFare < 1755 := by
  refine ⟨?_, ?_, s1DurationMinutes_eq, s1EstimatedFare_bounds.1,
    s1EstimatedFare_bounds.2⟩
  · intro d m hd hm
    have hd0 : ¬ d < 0 := not_lt.2 hd
    have hm0 : ¬ m < 0 := not_lt.2 hm
    refine ⟨?_, ?_, ?_⟩
    · simp [ComputeFinalFare, hd0, hm0]
    · simp [ComputeFinalFare, hd0, hm0, VehiclePremium, VehicleEconomy]
    · simp [ComputeFinalFare, hd0, hm0, VehicleXL, VehicleEconomy, VehiclePremium]
  · intro d
    unfold EstimateDurationMinutes
    dsimp only
    split_ifs with h
    · omega
    · omega

theorem C4_witness :
    ComputeFinalFare VehicleEconomy (2 : ℚ) 3 = 850 ∧
    ComputeFinalFare VehiclePremium (2 : ℚ) 3 = 1220 ∧
    ComputeFinalFare VehicleXL (2 : ℚ) 3 = 1525 ∧
    EstimateDurationMinutes (7 : ℚ) = 20 := by
  obtain ⟨hf, hdur, -, -, -⟩ := C4_fare_formula_and_s1
  obtain ⟨h1, h2, h3⟩ := hf 2 3 (by norm_num) (by norm_num)
  refine ⟨?_, ?_, ?_, ?_⟩
  · rw [h1]; norm_num
  · rw [h2]; norm_num
  · rw [h3]; norm_num
  · rw [hdur 7]
    have he : (7 : ℚ) / 21 * 60 = 20 := by norm_num
    rw [he]
    norm_num

theorem C4_counterexample_fare : s1EstimatedFare ≠ 1757 := by
  have h := s1EstimatedFare_bounds
  intro he
  rw [he] at h
  exact absurd h.2 (by norm_num)
